import Mathlib

/-!
Shallow embedding of the snake game from `src/main.rs` (HitaloM/snake-raylib).

Coordinates are modelled as rationals: every coordinate the program ever
computes is of the form `offset/2 + j * 31` plus sums thereof, all exactly
representable in `f32`, so rational arithmetic is a faithful model of the
floating-point arithmetic actually performed.  The random source is modelled
as a list of draw pairs; `gen_range(0..n)` applied to a draw `d` is modelled
as `d % n`, which ranges over exactly the values `gen_range` can return.
Array indexing that would panic in Rust (out-of-bounds) is modelled by an
`Except` error value.
-/

namespace SnakeGame

/-- Colors mentioned by the source; they take no part in the game logic. -/
inductive Color where
  | blue
  | darkblue
  | skyblue
deriving DecidableEq

/-- Two-dimensional vector, as used by the source for positions, sizes and
speeds (`raylib::Vector2`, here with exact rational coordinates). -/
structure Vector2 where
  x : ℚ
  y : ℚ
deriving DecidableEq

/-- Maximum length of the snake (`SNAKE_LENGTH` in the source). -/
def SNAKE_LENGTH : Nat := 256

/-- Size of each grid square (`SQUARE_SIZE` in the source). -/
def SQUARE_SIZE : Int := 31

/-- One snake segment: position, size, speed and color (`struct Snake`). -/
structure Snake where
  position : Vector2
  size : Vector2
  speed : Vector2
  color : Color
deriving DecidableEq

/-- The fruit (`struct Food`): position, size, active flag and color. -/
structure Food where
  position : Vector2
  size : Vector2
  active : Bool
  color : Color
deriving DecidableEq

/-- The whole game state (`struct GameState`).  The two fixed-size arrays are
modelled as functions from indices; indices at or above `SNAKE_LENGTH` are
junk whose access is guarded by explicit bound checks where Rust would
bounds-check. -/
structure GameState where
  frames_counter : Int
  game_over : Bool
  pause : Bool
  allow_move : Bool
  counter_tail : Nat
  offset : Vector2
  snake : Nat → Snake
  snake_position : Nat → Vector2
  fruit : Food

/-- Key-press events observed in one frame (edge-triggered, one flag per
key, matching `is_key_pressed` for D, A, W, S, P and ENTER). -/
structure Input where
  keyD : Bool
  keyA : Bool
  keyW : Bool
  keyS : Bool
  keyP : Bool
  keyEnter : Bool
deriving DecidableEq

/-- Abnormal outcomes of one `update_game` call in the embedding: an
out-of-bounds array index (a Rust panic) or exhaustion of the supplied
random draws inside the unbounded fruit resampling loop. -/
inductive Err where
  | oob
  | noFuel
deriving DecidableEq

/-- Direction handler for the D key: if D was pressed, the horizontal speed
is zero and movement is allowed, set speed to `(+S, 0)` and clear the
latch. -/
def dirD (inp : Input) (p : Vector2 × Bool) : Vector2 × Bool :=
  if inp.keyD = true ∧ p.1.x = 0 ∧ p.2 = true then (⟨(SQUARE_SIZE : ℚ), 0⟩, false)
  else p

/-- Direction handler for the A key, setting speed `(-S, 0)`. -/
def dirA (inp : Input) (p : Vector2 × Bool) : Vector2 × Bool :=
  if inp.keyA = true ∧ p.1.x = 0 ∧ p.2 = true then (⟨-(SQUARE_SIZE : ℚ), 0⟩, false)
  else p

/-- Direction handler for the W key, setting speed `(0, -S)`. -/
def dirW (inp : Input) (p : Vector2 × Bool) : Vector2 × Bool :=
  if inp.keyW = true ∧ p.1.y = 0 ∧ p.2 = true then (⟨0, -(SQUARE_SIZE : ℚ)⟩, false)
  else p

/-- Direction handler for the S key, setting speed `(0, +S)`. -/
def dirS (inp : Input) (p : Vector2 × Bool) : Vector2 × Bool :=
  if inp.keyS = true ∧ p.1.y = 0 ∧ p.2 = true then (⟨0, (SQUARE_SIZE : ℚ)⟩, false)
  else p

/-- Input handling of `update_game`: the four sequential `if` blocks for
D, A, W, S acting on the head's speed and the `allow_move` latch. -/
def handleInput (inp : Input) (sp : Vector2) (am : Bool) : Vector2 × Bool :=
  dirS inp (dirW inp (dirA inp (dirD inp (sp, am))))

/-- Pause toggling at the top of `update_game`: P flips the pause flag. -/
def postToggle (g : GameState) (inp : Input) : GameState :=
  if inp.keyP = true then { g with pause := !g.pause } else g

/-- History snapshot: `snake_position[i] = snake[i].position` for every live
index (`for i in 0..counter_tail`); a counter beyond the array capacity
would make the Rust loop panic, modelled by the error branch. -/
def snapshotPositions (g : GameState) : Except Err GameState :=
  if g.counter_tail ≤ SNAKE_LENGTH then
    .ok { g with
      snake_position := fun i =>
        if i < g.counter_tail then (g.snake i).position else g.snake_position i }
  else .error .oob

/-- Movement step, gated to frames whose counter is a multiple of 5: every
live segment except the head takes the history position of the segment
ahead of it, the head advances by its speed, and the latch reopens. -/
def moveSnake (g : GameState) : GameState :=
  if g.frames_counter % 5 = 0 then
    { g with
      snake := fun i =>
        if i = 0 then
          { g.snake 0 with
            position := ⟨(g.snake 0).position.x + (g.snake 0).speed.x,
                         (g.snake 0).position.y + (g.snake 0).speed.y⟩ }
        else if i < g.counter_tail then
          { g.snake i with position := g.snake_position (i - 1) }
        else g.snake i,
      allow_move := true }
  else g

/-- Wall-collision condition of the source: head beyond the right or bottom
bound (window size minus the centering offset) or at negative coordinates. -/
def wallOut (g : GameState) (screen_width screen_height : Int) : Prop :=
  (g.snake 0).position.x > (screen_width : ℚ) - g.offset.x ∨
  (g.snake 0).position.y > (screen_height : ℚ) - g.offset.y ∨
  (g.snake 0).position.x < 0 ∨
  (g.snake 0).position.y < 0

instance (g : GameState) (screen_width screen_height : Int) :
    Decidable (wallOut g screen_width screen_height) := by
  unfold wallOut; infer_instance

/-- Wall-collision check: on the wall-out condition the game ends. -/
def checkWall (g : GameState) (screen_width screen_height : Int) : GameState :=
  if wallOut g screen_width screen_height then { g with game_over := true } else g

/-- Self-collision condition: the head's position equals the position of
some other live segment. -/
def selfHit (g : GameState) : Prop :=
  ∃ i, 1 ≤ i ∧ i < g.counter_tail ∧ (g.snake 0).position = (g.snake i).position

/-- Self-collision check: `for i in 1..counter_tail`, head position equal to
segment `i`'s position ends the game. -/
def checkSelf (g : GameState) : GameState :=
  if (List.range' 1 (g.counter_tail - 1)).any
      (fun i => decide ((g.snake 0).position = (g.snake i).position)) then
    { g with game_over := true }
  else g

/-- One random fruit position: each `gen_range(0..(dim / SQUARE_SIZE))` draw
is scaled by the square size and offset-corrected. -/
def samplePos (d : Nat × Nat) (screen_width screen_height : Int) (off : Vector2) : Vector2 :=
  ⟨((d.1 % (screen_width / SQUARE_SIZE).toNat : ℕ) : ℚ) * (SQUARE_SIZE : ℚ) + off.x / 2,
   ((d.2 % (screen_height / SQUARE_SIZE).toNat : ℕ) : ℚ) * (SQUARE_SIZE : ℚ) + off.y / 2⟩

/-- Inner `while` of the fruit spawn: while the candidate position equals
the segment position, resample; the draw list is the fuel. -/
def spawnLoop (seg : Vector2) (screen_width screen_height : Int) (off : Vector2) :
    Vector2 → List (Nat × Nat) → Except Err (Vector2 × List (Nat × Nat))
  | pos, [] => if pos = seg then .error .noFuel else .ok (pos, [])
  | pos, d :: rest =>
    if pos = seg then spawnLoop seg screen_width screen_height off (samplePos d screen_width screen_height off) rest
    else .ok (pos, d :: rest)

/-- Outer `for` of the fruit spawn: run the rejection `while` once per live
segment, in index order, threading the candidate position through. -/
def spawnLoopAll (screen_width screen_height : Int) (off : Vector2) :
    List Vector2 → Vector2 → List (Nat × Nat) → Except Err (Vector2 × List (Nat × Nat))
  | [], pos, draws => .ok (pos, draws)
  | seg :: rest, pos, draws =>
    match spawnLoop seg screen_width screen_height off pos draws with
    | .error e => .error e
    | .ok (pos', draws') => spawnLoopAll screen_width screen_height off rest pos' draws'

/-- Fruit spawn step: if the fruit is inactive, activate it at a random
position and run the per-segment rejection loops. -/
def spawnFruit (g : GameState) (draws : List (Nat × Nat)) (screen_width screen_height : Int) :
    Except Err (GameState × List (Nat × Nat)) :=
  if g.fruit.active = true then .ok (g, draws)
  else
    match draws with
    | [] => .error .noFuel
    | d :: rest =>
      match spawnLoopAll screen_width screen_height g.offset
          ((List.range g.counter_tail).map (fun i => (g.snake i).position))
          (samplePos d screen_width screen_height g.offset) rest with
      | .error e => .error e
      | .ok (pos, rest') =>
        .ok ({ g with fruit := { g.fruit with position := pos, active := true } }, rest')

/-- Axis-aligned bounding-box overlap between the head's square and the
fruit's square, exactly the condition of the source's consumption check. -/
def overlapHeadFruit (g : GameState) : Prop :=
  (g.snake 0).position.x < g.fruit.position.x + g.fruit.size.x ∧
  (g.snake 0).position.x + (g.snake 0).size.x > g.fruit.position.x ∧
  (g.snake 0).position.y < g.fruit.position.y + g.fruit.size.y ∧
  (g.snake 0).position.y + (g.snake 0).size.y > g.fruit.position.y

instance (g : GameState) : Decidable (overlapHeadFruit g) := by
  unfold overlapHeadFruit; infer_instance

/-- Fruit consumption: on axis-aligned bounding-box overlap of head and
fruit, the segment at index `counter_tail` takes the last history position
of the current last live segment, the counter grows and the fruit is
deactivated.  The write `snake[counter_tail]` is not bounds-checked in the
source; here the Rust panic (index past capacity, or the underflow of
`counter_tail - 1` at zero) is the error branch. -/
def checkFood (g : GameState) : Except Err GameState :=
  if overlapHeadFruit g then
    if g.counter_tail = 0 ∨ SNAKE_LENGTH ≤ g.counter_tail then .error .oob
    else
      .ok { g with
        snake := fun i =>
          if i = g.counter_tail then
            { g.snake i with position := g.snake_position (g.counter_tail - 1) }
          else g.snake i,
        counter_tail := g.counter_tail + 1,
        fruit := { g.fruit with active := false } }
  else .ok g

/-- State after the direction-input block: the head's speed and the latch
take the values computed by `handleInput`; nothing else changes. -/
def inputApplied (g : GameState) (inp : Input) : GameState :=
  { g with
    snake := fun i =>
      if i = 0 then
        { g.snake 0 with speed := (handleInput inp (g.snake 0).speed g.allow_move).1 }
      else g.snake i,
    allow_move := (handleInput inp (g.snake 0).speed g.allow_move).2 }

/-- Input handling, history snapshot and conditional movement: the part of
the frame between the pause check and the wall-collision check. -/
def midMove (g : GameState) (inp : Input) : Except Err GameState :=
  match snapshotPositions (inputApplied g inp) with
  | .error e => .error e
  | .ok g3 => .ok (moveSnake g3)

/-- The frame up to and including the fruit spawn step (everything before
the fruit-consumption check). -/
def midSpawn (g : GameState) (inp : Input) (draws : List (Nat × Nat))
    (screen_width screen_height : Int) : Except Err GameState :=
  match midMove g inp with
  | .error e => .error e
  | .ok g4 =>
    match spawnFruit (checkSelf (checkWall g4 screen_width screen_height)) draws
        screen_width screen_height with
    | .error e => .error e
    | .ok (g7, _) => .ok g7

/-- The whole not-over, not-paused body of `update_game`: movement phase,
collision checks, fruit spawn, fruit consumption, counter increment. -/
def runFrame (g : GameState) (inp : Input) (draws : List (Nat × Nat))
    (screen_width screen_height : Int) : Except Err GameState :=
  match midSpawn g inp draws screen_width screen_height with
  | .error e => .error e
  | .ok g7 =>
    match checkFood g7 with
    | .error e => .error e
    | .ok g8 => .ok { g8 with frames_counter := g8.frames_counter + 1 }

/-- Reset of the game state (`GameState::init_game`): clears counters and
flags, computes the centering offset, places every segment at the centered
initial cell with rightward speed, zeroes the history and deactivates the
fruit (whose position is left as it was). -/
def init_game (g : GameState) (screen_width screen_height : Int) : GameState :=
  let off : Vector2 := ⟨((screen_width % SQUARE_SIZE : Int) : ℚ),
                        ((screen_height % SQUARE_SIZE : Int) : ℚ)⟩
  { frames_counter := 0
    game_over := false
    pause := false
    allow_move := false
    counter_tail := 1
    offset := off
    snake := fun i =>
      { position := ⟨off.x / 2, off.y / 2⟩
        size := ⟨(SQUARE_SIZE : ℚ), (SQUARE_SIZE : ℚ)⟩
        speed := ⟨(SQUARE_SIZE : ℚ), 0⟩
        color := if i = 0 then Color.darkblue else Color.blue }
    snake_position := fun _ => ⟨0, 0⟩
    fruit := { position := g.fruit.position
               size := ⟨(SQUARE_SIZE : ℚ), (SQUARE_SIZE : ℚ)⟩
               active := false
               color := Color.skyblue } }

/-- One call of `GameState::update_game`: over states react only to ENTER
(full reset); otherwise P toggles pause, a paused frame does nothing more,
and an unpaused frame runs the full frame body. -/
def update_game (g : GameState) (inp : Input) (draws : List (Nat × Nat))
    (screen_width screen_height : Int) : Except Err GameState :=
  if g.game_over = true then
    if inp.keyEnter = true then
      .ok { init_game g screen_width screen_height with game_over := false }
    else .ok g
  else
    let g1 := postToggle g inp
    if g1.pause = true then .ok g1
    else runFrame g1 inp draws screen_width screen_height

/-! Helper lemmas about the direction handlers and `handleInput`. -/

theorem dirD_latch_false (inp : Input) (sp : Vector2) : dirD inp (sp, false) = (sp, false) := by
  simp [dirD]

theorem dirA_latch_false (inp : Input) (sp : Vector2) : dirA inp (sp, false) = (sp, false) := by
  simp [dirA]

theorem dirW_latch_false (inp : Input) (sp : Vector2) : dirW inp (sp, false) = (sp, false) := by
  simp [dirW]

theorem dirS_latch_false (inp : Input) (sp : Vector2) : dirS inp (sp, false) = (sp, false) := by
  simp [dirS]

theorem dirD_cases (inp : Input) (sp : Vector2) (am : Bool) :
    dirD inp (sp, am) = (sp, am) ∨
    (sp.x = 0 ∧ am = true ∧ dirD inp (sp, am) = (⟨(SQUARE_SIZE : ℚ), 0⟩, false)) := by
  unfold dirD
  split
  · rename_i h; exact Or.inr ⟨h.2.1, h.2.2, rfl⟩
  · exact Or.inl rfl

theorem dirA_cases (inp : Input) (sp : Vector2) (am : Bool) :
    dirA inp (sp, am) = (sp, am) ∨
    (sp.x = 0 ∧ am = true ∧ dirA inp (sp, am) = (⟨-(SQUARE_SIZE : ℚ), 0⟩, false)) := by
  unfold dirA
  split
  · rename_i h; exact Or.inr ⟨h.2.1, h.2.2, rfl⟩
  · exact Or.inl rfl

theorem dirW_cases (inp : Input) (sp : Vector2) (am : Bool) :
    dirW inp (sp, am) = (sp, am) ∨
    (sp.y = 0 ∧ am = true ∧ dirW inp (sp, am) = (⟨0, -(SQUARE_SIZE : ℚ)⟩, false)) := by
  unfold dirW
  split
  · rename_i h; exact Or.inr ⟨h.2.1, h.2.2, rfl⟩
  · exact Or.inl rfl

theorem dirS_cases (inp : Input) (sp : Vector2) (am : Bool) :
    dirS inp (sp, am) = (sp, am) ∨
    (sp.y = 0 ∧ am = true ∧ dirS inp (sp, am) = (⟨0, (SQUARE_SIZE : ℚ)⟩, false)) := by
  unfold dirS
  split
  · rename_i h; exact Or.inr ⟨h.2.1, h.2.2, rfl⟩
  · exact Or.inl rfl

theorem handleInput_latch_false (inp : Input) (sp : Vector2) :
    handleInput inp sp false = (sp, false) := by
  unfold handleInput
  rw [dirD_latch_false, dirA_latch_false, dirW_latch_false, dirS_latch_false]

/-- Characterization of one call of the input block: either nothing is
accepted and speed and latch are unchanged, or exactly one direction is
accepted, requiring the latch and the zero axis, clearing the latch and
setting one of the four axis-aligned speeds. -/
theorem handleInput_spec (inp : Input) (sp : Vector2) (am : Bool) :
    handleInput inp sp am = (sp, am) ∨
    (am = true ∧ (handleInput inp sp am).2 = false ∧
      ((sp.x = 0 ∧ ((handleInput inp sp am).1 = ⟨(SQUARE_SIZE : ℚ), 0⟩ ∨
                    (handleInput inp sp am).1 = ⟨-(SQUARE_SIZE : ℚ), 0⟩)) ∨
       (sp.y = 0 ∧ ((handleInput inp sp am).1 = ⟨0, -(SQUARE_SIZE : ℚ)⟩ ∨
                    (handleInput inp sp am).1 = ⟨0, (SQUARE_SIZE : ℚ)⟩)))) := by
  unfold handleInput
  rcases dirD_cases inp sp am with hD | ⟨hx, ham, hD⟩
  · rw [hD]
    rcases dirA_cases inp sp am with hA | ⟨hx, ham, hA⟩
    · rw [hA]
      rcases dirW_cases inp sp am with hW | ⟨hy, ham, hW⟩
      · rw [hW]
        rcases dirS_cases inp sp am with hS | ⟨hy, ham, hS⟩
        · rw [hS]; exact Or.inl rfl
        · rw [hS, ham]
          exact Or.inr ⟨rfl, rfl, Or.inr ⟨hy, Or.inr rfl⟩⟩
      · rw [hW, ham, dirS_latch_false]
        exact Or.inr ⟨rfl, rfl, Or.inr ⟨hy, Or.inl rfl⟩⟩
    · rw [hA, ham, dirW_latch_false, dirS_latch_false]
      exact Or.inr ⟨rfl, rfl, Or.inl ⟨hx, Or.inr rfl⟩⟩
  · rw [hD, ham, dirA_latch_false, dirW_latch_false, dirS_latch_false]
    exact Or.inr ⟨rfl, rfl, Or.inl ⟨hx, Or.inl rfl⟩⟩

theorem dirD_x_ne (inp : Input) (sp : Vector2) (am : Bool) (h : sp.x ≠ 0) :
    dirD inp (sp, am) = (sp, am) := by
  unfold dirD; rw [if_neg]; tauto

theorem dirA_x_ne (inp : Input) (sp : Vector2) (am : Bool) (h : sp.x ≠ 0) :
    dirA inp (sp, am) = (sp, am) := by
  unfold dirA; rw [if_neg]; tauto

theorem dirD_not_pressed (inp : Input) (p : Vector2 × Bool) (h : inp.keyD = false) :
    dirD inp p = p := by
  obtain ⟨sp, am⟩ := p; unfold dirD; rw [if_neg]; simp [h]

theorem dirA_not_pressed (inp : Input) (p : Vector2 × Bool) (h : inp.keyA = false) :
    dirA inp p = p := by
  obtain ⟨sp, am⟩ := p; unfold dirA; rw [if_neg]; simp [h]

theorem dirD_congr (inp inp' : Input) (p : Vector2 × Bool) (h : inp.keyD = inp'.keyD) :
    dirD inp p = dirD inp' p := by
  unfold dirD; rw [h]

theorem dirA_congr (inp inp' : Input) (p : Vector2 × Bool) (h : inp.keyA = inp'.keyA) :
    dirA inp p = dirA inp' p := by
  unfold dirA; rw [h]

theorem dirW_congr (inp inp' : Input) (p : Vector2 × Bool) (h : inp.keyW = inp'.keyW) :
    dirW inp p = dirW inp' p := by
  unfold dirW; rw [h]

theorem dirS_congr (inp inp' : Input) (p : Vector2 × Bool) (h : inp.keyS = inp'.keyS) :
    dirS inp p = dirS inp' p := by
  unfold dirS; rw [h]

/-- With a nonzero horizontal speed the D and A keys are ignored entirely:
the input block behaves as if they had not been pressed. -/
theorem handleInput_horiz_ignored (inp : Input) (sp : Vector2) (am : Bool) (h : sp.x ≠ 0) :
    handleInput inp sp am =
      handleInput ⟨false, false, inp.keyW, inp.keyS, inp.keyP, inp.keyEnter⟩ sp am := by
  unfold handleInput
  rw [dirD_x_ne inp sp am h, dirA_x_ne inp sp am h,
      dirD_not_pressed _ _ rfl, dirA_not_pressed _ _ rfl,
      dirW_congr inp ⟨false, false, inp.keyW, inp.keyS, inp.keyP, inp.keyEnter⟩ _ rfl,
      dirS_congr inp ⟨false, false, inp.keyW, inp.keyS, inp.keyP, inp.keyEnter⟩ _ rfl]

/-! Projection lemmas for the frame phases. -/

@[simp] theorem postToggle_game_over (g : GameState) (inp : Input) :
    (postToggle g inp).game_over = g.game_over := by
  unfold postToggle; split <;> rfl

@[simp] theorem postToggle_allow_move (g : GameState) (inp : Input) :
    (postToggle g inp).allow_move = g.allow_move := by
  unfold postToggle; split <;> rfl

@[simp] theorem postToggle_counter_tail (g : GameState) (inp : Input) :
    (postToggle g inp).counter_tail = g.counter_tail := by
  unfold postToggle; split <;> rfl

@[simp] theorem postToggle_frames_counter (g : GameState) (inp : Input) :
    (postToggle g inp).frames_counter = g.frames_counter := by
  unfold postToggle; split <;> rfl

@[simp] theorem postToggle_offset (g : GameState) (inp : Input) :
    (postToggle g inp).offset = g.offset := by
  unfold postToggle; split <;> rfl

@[simp] theorem postToggle_snake (g : GameState) (inp : Input) :
    (postToggle g inp).snake = g.snake := by
  unfold postToggle; split <;> rfl

@[simp] theorem postToggle_snake_position (g : GameState) (inp : Input) :
    (postToggle g inp).snake_position = g.snake_position := by
  unfold postToggle; split <;> rfl

@[simp] theorem postToggle_fruit (g : GameState) (inp : Input) :
    (postToggle g inp).fruit = g.fruit := by
  unfold postToggle; split <;> rfl

theorem postToggle_no_p (g : GameState) (inp : Input) (h : inp.keyP = false) :
    postToggle g inp = g := by
  unfold postToggle; rw [if_neg]; simp [h]

theorem postToggle_p (g : GameState) (inp : Input) (h : inp.keyP = true) :
    postToggle g inp = { g with pause := !g.pause } := by
  unfold postToggle; rw [if_pos h]

@[simp] theorem inputApplied_game_over (g : GameState) (inp : Input) :
    (inputApplied g inp).game_over = g.game_over := rfl

@[simp] theorem inputApplied_pause (g : GameState) (inp : Input) :
    (inputApplied g inp).pause = g.pause := rfl

@[simp] theorem inputApplied_counter_tail (g : GameState) (inp : Input) :
    (inputApplied g inp).counter_tail = g.counter_tail := rfl

@[simp] theorem inputApplied_frames_counter (g : GameState) (inp : Input) :
    (inputApplied g inp).frames_counter = g.frames_counter := rfl

@[simp] theorem inputApplied_offset (g : GameState) (inp : Input) :
    (inputApplied g inp).offset = g.offset := rfl

@[simp] theorem inputApplied_snake_position (g : GameState) (inp : Input) :
    (inputApplied g inp).snake_position = g.snake_position := rfl

@[simp] theorem inputApplied_fruit (g : GameState) (inp : Input) :
    (inputApplied g inp).fruit = g.fruit := rfl

@[simp] theorem inputApplied_allow_move (g : GameState) (inp : Input) :
    (inputApplied g inp).allow_move = (handleInput inp (g.snake 0).speed g.allow_move).2 := rfl

@[simp] theorem inputApplied_position (g : GameState) (inp : Input) (i : Nat) :
    ((inputApplied g inp).snake i).position = (g.snake i).position := by
  by_cases h : i = 0 <;> simp [inputApplied, h]

@[simp] theorem inputApplied_size (g : GameState) (inp : Input) (i : Nat) :
    ((inputApplied g inp).snake i).size = (g.snake i).size := by
  by_cases h : i = 0 <;> simp [inputApplied, h]

@[simp] theorem inputApplied_speed_head (g : GameState) (inp : Input) :
    ((inputApplied g inp).snake 0).speed = (handleInput inp (g.snake 0).speed g.allow_move).1 := by
  simp [inputApplied]

theorem snapshot_ok (g : GameState) (h : g.counter_tail ≤ SNAKE_LENGTH) :
    snapshotPositions g = .ok { g with
      snake_position := fun i =>
        if i < g.counter_tail then (g.snake i).position else g.snake_position i } := by
  unfold snapshotPositions; rw [if_pos h]

theorem snapshot_ok_elim (g g' : GameState) (h : snapshotPositions g = .ok g') :
    g.counter_tail ≤ SNAKE_LENGTH ∧
    g' = { g with
      snake_position := fun i =>
        if i < g.counter_tail then (g.snake i).position else g.snake_position i } := by
  unfold snapshotPositions at h
  split at h
  · rename_i hle; exact ⟨hle, by injection h with h; exact h.symm⟩
  · cases h

theorem moveSnake_not_tick (g : GameState) (h : ¬ g.frames_counter % 5 = 0) :
    moveSnake g = g := by
  unfold moveSnake; rw [if_neg h]

theorem moveSnake_tick (g : GameState) (h : g.frames_counter % 5 = 0) :
    moveSnake g = { g with
      snake := fun i =>
        if i = 0 then
          { g.snake 0 with
            position := ⟨(g.snake 0).position.x + (g.snake 0).speed.x,
                         (g.snake 0).position.y + (g.snake 0).speed.y⟩ }
        else if i < g.counter_tail then
          { g.snake i with position := g.snake_position (i - 1) }
        else g.snake i,
      allow_move := true } := by
  unfold moveSnake; rw [if_pos h]

@[simp] theorem moveSnake_game_over (g : GameState) :
    (moveSnake g).game_over = g.game_over := by
  unfold moveSnake; split <;> rfl

@[simp] theorem moveSnake_pause (g : GameState) : (moveSnake g).pause = g.pause := by
  unfold moveSnake; split <;> rfl

@[simp] theorem moveSnake_counter_tail (g : GameState) :
    (moveSnake g).counter_tail = g.counter_tail := by
  unfold moveSnake; split <;> rfl

@[simp] theorem moveSnake_frames_counter (g : GameState) :
    (moveSnake g).frames_counter = g.frames_counter := by
  unfold moveSnake; split <;> rfl

@[simp] theorem moveSnake_offset (g : GameState) : (moveSnake g).offset = g.offset := by
  unfold moveSnake; split <;> rfl

@[simp] theorem moveSnake_snake_position (g : GameState) :
    (moveSnake g).snake_position = g.snake_position := by
  unfold moveSnake; split <;> rfl

@[simp] theorem moveSnake_fruit (g : GameState) : (moveSnake g).fruit = g.fruit := by
  unfold moveSnake; split <;> rfl

@[simp] theorem moveSnake_speed (g : GameState) (i : Nat) :
    ((moveSnake g).snake i).speed = (g.snake i).speed := by
  unfold moveSnake
  split
  · by_cases h : i = 0
    · subst h; rfl
    · dsimp only; rw [if_neg h]; split <;> rfl
  · rfl

@[simp] theorem moveSnake_size (g : GameState) (i : Nat) :
    ((moveSnake g).snake i).size = (g.snake i).size := by
  unfold moveSnake
  split
  · by_cases h : i = 0
    · subst h; rfl
    · dsimp only; rw [if_neg h]; split <;> rfl
  · rfl

theorem checkWall_of_wallOut (g : GameState) (sw sh : Int) (h : wallOut g sw sh) :
    checkWall g sw sh = { g with game_over := true } := by
  unfold checkWall; rw [if_pos h]

theorem checkWall_of_not (g : GameState) (sw sh : Int) (h : ¬ wallOut g sw sh) :
    checkWall g sw sh = g := by
  unfold checkWall; rw [if_neg h]

@[simp] theorem checkWall_snake (g : GameState) (sw sh : Int) :
    (checkWall g sw sh).snake = g.snake := by
  unfold checkWall; split <;> rfl

@[simp] theorem checkWall_counter_tail (g : GameState) (sw sh : Int) :
    (checkWall g sw sh).counter_tail = g.counter_tail := by
  unfold checkWall; split <;> rfl

@[simp] theorem checkWall_pause (g : GameState) (sw sh : Int) :
    (checkWall g sw sh).pause = g.pause := by
  unfold checkWall; split <;> rfl

@[simp] theorem checkWall_allow_move (g : GameState) (sw sh : Int) :
    (checkWall g sw sh).allow_move = g.allow_move := by
  unfold checkWall; split <;> rfl

@[simp] theorem checkWall_frames_counter (g : GameState) (sw sh : Int) :
    (checkWall g sw sh).frames_counter = g.frames_counter := by
  unfold checkWall; split <;> rfl

@[simp] theorem checkWall_offset (g : GameState) (sw sh : Int) :
    (checkWall g sw sh).offset = g.offset := by
  unfold checkWall; split <;> rfl

@[simp] theorem checkWall_snake_position (g : GameState) (sw sh : Int) :
    (checkWall g sw sh).snake_position = g.snake_position := by
  unfold checkWall; split <;> rfl

@[simp] theorem checkWall_fruit (g : GameState) (sw sh : Int) :
    (checkWall g sw sh).fruit = g.fruit := by
  unfold checkWall; split <;> rfl

theorem checkWall_over_mono (g : GameState) (sw sh : Int) (h : g.game_over = true) :
    (checkWall g sw sh).game_over = true := by
  unfold checkWall; split <;> simp [h]

/-! Lemmas about the self-collision check. -/

theorem selfHit_iff_any (g : GameState) :
    ((List.range' 1 (g.counter_tail - 1)).any
      (fun i => decide ((g.snake 0).position = (g.snake i).position)) = true) ↔ selfHit g := by
  rw [List.any_eq_true]
  constructor
  · rintro ⟨i, hmem, hdec⟩
    rw [List.mem_range'_1] at hmem
    exact ⟨i, hmem.1, by omega, of_decide_eq_true hdec⟩
  · rintro ⟨i, h1, h2, heq⟩
    exact ⟨i, List.mem_range'_1.mpr ⟨h1, by omega⟩, decide_eq_true heq⟩

theorem checkSelf_of_selfHit (g : GameState) (h : selfHit g) :
    checkSelf g = { g with game_over := true } := by
  unfold checkSelf; rw [if_pos ((selfHit_iff_any g).mpr h)]

theorem checkSelf_of_not (g : GameState) (h : ¬ selfHit g) :
    checkSelf g = g := by
  unfold checkSelf
  rw [if_neg]
  intro hc
  exact h ((selfHit_iff_any g).mp hc)

@[simp] theorem checkSelf_snake (g : GameState) : (checkSelf g).snake = g.snake := by
  unfold checkSelf; split <;> rfl

@[simp] theorem checkSelf_counter_tail (g : GameState) :
    (checkSelf g).counter_tail = g.counter_tail := by
  unfold checkSelf; split <;> rfl

@[simp] theorem checkSelf_pause (g : GameState) : (checkSelf g).pause = g.pause := by
  unfold checkSelf; split <;> rfl

@[simp] theorem checkSelf_allow_move (g : GameState) :
    (checkSelf g).allow_move = g.allow_move := by
  unfold checkSelf; split <;> rfl

@[simp] theorem checkSelf_frames_counter (g : GameState) :
    (checkSelf g).frames_counter = g.frames_counter := by
  unfold checkSelf; split <;> rfl

@[simp] theorem checkSelf_offset (g : GameState) : (checkSelf g).offset = g.offset := by
  unfold checkSelf; split <;> rfl

@[simp] theorem checkSelf_snake_position (g : GameState) :
    (checkSelf g).snake_position = g.snake_position := by
  unfold checkSelf; split <;> rfl

@[simp] theorem checkSelf_fruit (g : GameState) : (checkSelf g).fruit = g.fruit := by
  unfold checkSelf; split <;> rfl

theorem checkSelf_over_mono (g : GameState) (h : g.game_over = true) :
    (checkSelf g).game_over = true := by
  unfold checkSelf; split <;> simp [h]

/-! Lemmas about the fruit-spawn step. -/

theorem spawnFruit_active (g : GameState) (draws : List (Nat × Nat)) (sw sh : Int)
    (h : g.fruit.active = true) : spawnFruit g draws sw sh = .ok (g, draws) := by
  unfold spawnFruit; rw [if_pos h]

/-- Everything but the fruit is unchanged by a successful spawn step, and
the fruit ends up active with its size preserved. -/
theorem spawnFruit_ok_proj (g g' : GameState) (draws rest : List (Nat × Nat)) (sw sh : Int)
    (h : spawnFruit g draws sw sh = .ok (g', rest)) :
    g'.snake = g.snake ∧ g'.counter_tail = g.counter_tail ∧ g'.game_over = g.game_over ∧
    g'.pause = g.pause ∧ g'.allow_move = g.allow_move ∧
    g'.frames_counter = g.frames_counter ∧ g'.offset = g.offset ∧
    g'.snake_position = g.snake_position ∧
    g'.fruit.active = true ∧ g'.fruit.size = g.fruit.size := by
  unfold spawnFruit at h
  split at h
  · rename_i hact
    injection h with h
    injection h with h1 h2
    subst h1
    exact ⟨rfl, rfl, rfl, rfl, rfl, rfl, rfl, rfl, hact, rfl⟩
  · rename_i hact
    match draws with
    | [] => cases h
    | d :: rest0 =>
      dsimp only at h
      split at h
      · cases h
      · rename_i pr hloop
        injection h with h
        injection h with h1 h2
        subst h1
        exact ⟨rfl, rfl, rfl, rfl, rfl, rfl, rfl, rfl, rfl, rfl⟩

/-- A position produced by the inner rejection loop is either the candidate
it was given or the image of one of the draws under `samplePos`. -/
theorem spawnLoop_shape (seg : Vector2) (sw sh : Int) (off : Vector2)
    (draws : List (Nat × Nat)) :
    ∀ pos p rest, spawnLoop seg sw sh off pos draws = .ok (p, rest) →
      p = pos ∨ ∃ d : Nat × Nat, p = samplePos d sw sh off := by
  induction draws with
  | nil =>
    intro pos p rest h
    unfold spawnLoop at h
    split at h
    · cases h
    · injection h with h; injection h with h1 h2; exact Or.inl h1.symm
  | cons d rest0 ih =>
    intro pos p rest h
    unfold spawnLoop at h
    split at h
    · rcases ih (samplePos d sw sh off) p rest h with h1 | h1
      · exact Or.inr ⟨d, h1⟩
      · exact Or.inr h1
    · injection h with h; injection h with h1 h2; exact Or.inl h1.symm

/-- Same shape property for the outer per-segment loop. -/
theorem spawnLoopAll_shape (sw sh : Int) (off : Vector2) (segs : List Vector2) :
    ∀ pos draws p rest, spawnLoopAll sw sh off segs pos draws = .ok (p, rest) →
      p = pos ∨ ∃ d : Nat × Nat, p = samplePos d sw sh off := by
  induction segs with
  | nil =>
    intro pos draws p rest h
    unfold spawnLoopAll at h
    injection h with h; injection h with h1 h2; exact Or.inl h1.symm
  | cons seg rest0 ih =>
    intro pos draws p rest h
    unfold spawnLoopAll at h
    split at h
    · cases h
    · rename_i pos1 draws1 hloop
      rcases ih pos1 draws1 p rest h with h1 | h1
      · rcases spawnLoop_shape seg sw sh off draws pos pos1 draws1 hloop with h2 | h2
        · exact Or.inl (h1.trans h2)
        · rw [h1]; exact Or.inr h2
      · exact Or.inr h1

/-- A successful spawn step on an inactive fruit yields a fruit position in
the image of `samplePos`. -/
theorem spawnFruit_pos_shape (g g' : GameState) (draws rest : List (Nat × Nat)) (sw sh : Int)
    (hact : g.fruit.active = false)
    (h : spawnFruit g draws sw sh = .ok (g', rest)) :
    ∃ d : Nat × Nat, g'.fruit.position = samplePos d sw sh g.offset := by
  unfold spawnFruit at h
  rw [hact] at h
  simp only [Bool.false_eq_true, if_false] at h
  match draws with
  | [] => cases h
  | d :: rest0 =>
    dsimp only at h
    split at h
    · cases h
    · rename_i pos1 draws1 hloop
      injection h with h
      injection h with h1 h2
      rcases spawnLoopAll_shape sw sh g.offset _ _ _ pos1 draws1 hloop with hs | hs
      · exact ⟨d, by rw [← h1]; exact hs⟩
      · obtain ⟨d', hd'⟩ := hs
        exact ⟨d', by rw [← h1]; exact hd'⟩

/-! Lemmas about the fruit-consumption step. -/

theorem checkFood_not (g : GameState) (h : ¬ overlapHeadFruit g) : checkFood g = .ok g := by
  unfold checkFood; rw [if_neg h]

theorem checkFood_hit (g : GameState) (h : overlapHeadFruit g)
    (h0 : ¬ (g.counter_tail = 0 ∨ SNAKE_LENGTH ≤ g.counter_tail)) :
    checkFood g = .ok { g with
      snake := fun i =>
        if i = g.counter_tail then
          { g.snake i with position := g.snake_position (g.counter_tail - 1) }
        else g.snake i,
      counter_tail := g.counter_tail + 1,
      fruit := { g.fruit with active := false } } := by
  unfold checkFood; rw [if_pos h, if_neg h0]

theorem checkFood_oob (g : GameState) (h : overlapHeadFruit g)
    (h0 : g.counter_tail = 0 ∨ SNAKE_LENGTH ≤ g.counter_tail) :
    checkFood g = .error .oob := by
  unfold checkFood; rw [if_pos h, if_pos h0]

theorem checkFood_ok_cases (g g' : GameState) (h : checkFood g = .ok g') :
    (¬ overlapHeadFruit g ∧ g' = g) ∨
    (overlapHeadFruit g ∧ g.counter_tail ≠ 0 ∧ g.counter_tail < SNAKE_LENGTH ∧
      g' = { g with
        snake := fun i =>
          if i = g.counter_tail then
            { g.snake i with position := g.snake_position (g.counter_tail - 1) }
          else g.snake i,
        counter_tail := g.counter_tail + 1,
        fruit := { g.fruit with active := false } }) := by
  unfold checkFood at h
  split at h
  · rename_i hov
    split at h
    · cases h
    · rename_i hc
      push_neg at hc
      injection h with h
      exact Or.inr ⟨hov, hc.1, by omega, h.symm⟩
  · rename_i hov
    injection h with h
    exact Or.inl ⟨hov, h.symm⟩

/-! Decomposition of `update_game` into its phases. -/

theorem update_over_enter (g : GameState) (inp : Input) (draws : List (Nat × Nat))
    (sw sh : Int) (h : g.game_over = true) (he : inp.keyEnter = true) :
    update_game g inp draws sw sh = .ok { init_game g sw sh with game_over := false } := by
  unfold update_game; rw [if_pos h, if_pos he]

theorem update_over_stay (g : GameState) (inp : Input) (draws : List (Nat × Nat))
    (sw sh : Int) (h : g.game_over = true) (he : inp.keyEnter = false) :
    update_game g inp draws sw sh = .ok g := by
  unfold update_game; rw [if_pos h, if_neg]; simp [he]

theorem update_paused (g : GameState) (inp : Input) (draws : List (Nat × Nat))
    (sw sh : Int) (h : g.game_over = false) (hp : (postToggle g inp).pause = true) :
    update_game g inp draws sw sh = .ok (postToggle g inp) := by
  unfold update_game
  rw [if_neg (by simp [h]), if_pos hp]

theorem update_playing (g : GameState) (inp : Input) (draws : List (Nat × Nat))
    (sw sh : Int) (h : g.game_over = false) (hp : (postToggle g inp).pause = false) :
    update_game g inp draws sw sh = runFrame (postToggle g inp) inp draws sw sh := by
  unfold update_game
  rw [if_neg (by simp [h]), if_neg (by simp [hp])]

theorem midMove_ok_elim (g g4 : GameState) (inp : Input)
    (h : midMove g inp = .ok g4) :
    ∃ g3, snapshotPositions (inputApplied g inp) = .ok g3 ∧ g4 = moveSnake g3 := by
  unfold midMove at h
  split at h
  · cases h
  · rename_i g3 hsnap
    injection h with h
    exact ⟨g3, hsnap, h.symm⟩

theorem midSpawn_ok_elim (g g7 : GameState) (inp : Input) (draws : List (Nat × Nat))
    (sw sh : Int) (h : midSpawn g inp draws sw sh = .ok g7) :
    ∃ g4 rest, midMove g inp = .ok g4 ∧
      spawnFruit (checkSelf (checkWall g4 sw sh)) draws sw sh = .ok (g7, rest) := by
  unfold midSpawn at h
  split at h
  · cases h
  · rename_i g4 hmid
    split at h
    · cases h
    · rename_i g7' rest hspawn
      injection h with h
      subst h
      exact ⟨g4, rest, hmid, hspawn⟩

theorem runFrame_ok_elim (g g' : GameState) (inp : Input) (draws : List (Nat × Nat))
    (sw sh : Int) (h : runFrame g inp draws sw sh = .ok g') :
    ∃ g7 g8, midSpawn g inp draws sw sh = .ok g7 ∧ checkFood g7 = .ok g8 ∧
      g' = { g8 with frames_counter := g8.frames_counter + 1 } := by
  unfold runFrame at h
  split at h
  · cases h
  · rename_i g7 hmid
    split at h
    · cases h
    · rename_i g8 hfood
      injection h with h
      exact ⟨g7, g8, hmid, hfood, h.symm⟩

/-! Projection lemmas for `init_game`. -/

@[simp] theorem init_game_frames_counter (g : GameState) (sw sh : Int) :
    (init_game g sw sh).frames_counter = 0 := rfl

@[simp] theorem init_game_game_over (g : GameState) (sw sh : Int) :
    (init_game g sw sh).game_over = false := rfl

@[simp] theorem init_game_pause (g : GameState) (sw sh : Int) :
    (init_game g sw sh).pause = false := rfl

@[simp] theorem init_game_allow_move (g : GameState) (sw sh : Int) :
    (init_game g sw sh).allow_move = false := rfl

@[simp] theorem init_game_counter_tail (g : GameState) (sw sh : Int) :
    (init_game g sw sh).counter_tail = 1 := rfl

@[simp] theorem init_game_offset (g : GameState) (sw sh : Int) :
    (init_game g sw sh).offset =
      ⟨((sw % SQUARE_SIZE : Int) : ℚ), ((sh % SQUARE_SIZE : Int) : ℚ)⟩ := rfl

@[simp] theorem init_game_snake_position (g : GameState) (sw sh : Int) (i : Nat) :
    (init_game g sw sh).snake_position i = ⟨0, 0⟩ := rfl

@[simp] theorem init_game_snake_pos (g : GameState) (sw sh : Int) (i : Nat) :
    ((init_game g sw sh).snake i).position =
      ⟨((sw % SQUARE_SIZE : Int) : ℚ) / 2, ((sh % SQUARE_SIZE : Int) : ℚ) / 2⟩ := rfl

@[simp] theorem init_game_snake_speed (g : GameState) (sw sh : Int) (i : Nat) :
    ((init_game g sw sh).snake i).speed = ⟨(SQUARE_SIZE : ℚ), 0⟩ := rfl

@[simp] theorem init_game_fruit_active (g : GameState) (sw sh : Int) :
    (init_game g sw sh).fruit.active = false := rfl

/-- The input block ignores P and ENTER: inputs agreeing on the four
direction keys act identically. -/
theorem handleInput_congr (inp inp' : Input) (sp : Vector2) (am : Bool)
    (hD : inp.keyD = inp'.keyD) (hA : inp.keyA = inp'.keyA)
    (hW : inp.keyW = inp'.keyW) (hS : inp.keyS = inp'.keyS) :
    handleInput inp sp am = handleInput inp' sp am := by
  unfold handleInput
  rw [dirD_congr inp inp' _ hD, dirA_congr inp inp' _ hA,
      dirW_congr inp inp' _ hW, dirS_congr inp inp' _ hS]

theorem inputApplied_congr (g : GameState) (inp inp' : Input)
    (hD : inp.keyD = inp'.keyD) (hA : inp.keyA = inp'.keyA)
    (hW : inp.keyW = inp'.keyW) (hS : inp.keyS = inp'.keyS) :
    inputApplied g inp = inputApplied g inp' := by
  unfold inputApplied
  rw [handleInput_congr inp inp' _ _ hD hA hW hS]

/-- The frame body ignores P and ENTER. -/
theorem runFrame_congr (g : GameState) (inp inp' : Input) (draws : List (Nat × Nat))
    (sw sh : Int)
    (hD : inp.keyD = inp'.keyD) (hA : inp.keyA = inp'.keyA)
    (hW : inp.keyW = inp'.keyW) (hS : inp.keyS = inp'.keyS) :
    runFrame g inp draws sw sh = runFrame g inp' draws sw sh := by
  unfold runFrame midSpawn midMove
  rw [inputApplied_congr g inp inp' hD hA hW hS]

/-- Field bookkeeping of one successful unpaused frame: the counter grows by
one, the frame ends unpaused and the offset is unchanged. -/
theorem update_ok_fields (g g' : GameState) (inp : Input) (draws : List (Nat × Nat))
    (sw sh : Int) (hover : g.game_over = false) (hp : (postToggle g inp).pause = false)
    (h : update_game g inp draws sw sh = .ok g') :
    g'.frames_counter = g.frames_counter + 1 ∧ g'.pause = false ∧ g'.offset = g.offset := by
  rw [update_playing g inp draws sw sh hover hp] at h
  obtain ⟨g7, g8, hmid, hfood, hg'⟩ := runFrame_ok_elim _ _ _ _ _ _ h
  obtain ⟨g4, rest, hmv, hspawn⟩ := midSpawn_ok_elim _ _ _ _ _ _ hmid
  obtain ⟨g3, hsnap, hg4⟩ := midMove_ok_elim _ _ _ hmv
  obtain ⟨hle, hg3⟩ := snapshot_ok_elim _ _ hsnap
  obtain ⟨-, -, -, hpau, -, hfr, hoff, -, -, -⟩ := spawnFruit_ok_proj _ _ _ _ _ _ hspawn
  simp only [checkSelf_frames_counter, checkWall_frames_counter,
    checkSelf_pause, checkWall_pause, checkSelf_offset, checkWall_offset] at hpau hfr hoff
  have h8 : g8.frames_counter = g7.frames_counter ∧ g8.pause = g7.pause ∧
      g8.offset = g7.offset := by
    rcases checkFood_ok_cases _ _ hfood with ⟨-, hg8⟩ | ⟨-, -, -, hg8⟩ <;> subst hg8 <;>
      exact ⟨rfl, rfl, rfl⟩
  subst hg' hg4 hg3
  refine ⟨?_, ?_, ?_⟩
  · simp [h8.1, hfr]
  · simp [h8.2.1, hpau, hp]
  · simp [h8.2.2, hoff]

/-! Concrete fixtures used by witnesses and counterexamples.  The 800 by 450
window of the source gives the centering offset `(800 mod 31, 450 mod 31) =
(25, 16)`, so grid cells sit at `x = 25/2 + 31 j`, `y = 8 + 31 k`. -/

/-- Build a snake segment at a position with the default size and rightward
speed. -/
def segAt (p : Vector2) : Snake :=
  { position := p
    size := ⟨(SQUARE_SIZE : ℚ), (SQUARE_SIZE : ℚ)⟩
    speed := ⟨(SQUARE_SIZE : ℚ), 0⟩
    color := Color.blue }

/-- Frame with no key pressed. -/
def noInput : Input := ⟨false, false, false, false, false, false⟩

/-- Frame with only ENTER pressed. -/
def enterInput : Input := ⟨false, false, false, false, false, true⟩

/-- Frame with only P pressed. -/
def pInput : Input := ⟨false, false, false, false, true, false⟩

/-- Extract the state of a successful update, with a fallback default. -/
def okOr (g : GameState) (r : Except Err GameState) : GameState :=
  match r with
  | .ok g' => g'
  | .error _ => g

/-- A game-over state with a length-3 snake. -/
def gOver : GameState :=
  { frames_counter := 7
    game_over := true
    pause := false
    allow_move := true
    counter_tail := 3
    offset := ⟨25, 16⟩
    snake := fun _ => segAt ⟨25 / 2, 8⟩
    snake_position := fun _ => ⟨0, 0⟩
    fruit := { position := ⟨0, 0⟩, size := ⟨(SQUARE_SIZE : ℚ), (SQUARE_SIZE : ℚ)⟩,
               active := true, color := Color.skyblue } }

/-- A paused mid-game state: length-1 snake at the centered initial cell, an
active fruit two cells to the right, frame counter 1. -/
def gPaused : GameState :=
  { frames_counter := 1
    game_over := false
    pause := true
    allow_move := false
    counter_tail := 1
    offset := ⟨25, 16⟩
    snake := fun _ => segAt ⟨25 / 2, 8⟩
    snake_position := fun _ => ⟨0, 0⟩
    fruit := { position := ⟨25 / 2 + 62, 8⟩, size := ⟨(SQUARE_SIZE : ℚ), (SQUARE_SIZE : ℚ)⟩,
               active := true, color := Color.skyblue } }

/-- Claim C8: while the game is over, every input except ENTER leaves the
state unchanged; ENTER re-invokes the reset with the same dimensions, after
which the tail counter is 1, all flags are cleared, the frame counter is 0,
every segment sits at the centered initial cell with rightward speed `(+S,
0)`, and the fruit is inactive. -/
theorem claim_C8 (g : GameState) (inp : Input) (draws : List (Nat × Nat)) (sw sh : Int)
    (h : g.game_over = true) :
    (inp.keyEnter = false → update_game g inp draws sw sh = .ok g) ∧
    (inp.keyEnter = true → ∃ g', update_game g inp draws sw sh = .ok g' ∧
      g' = { init_game g sw sh with game_over := false } ∧
      g'.counter_tail = 1 ∧ g'.game_over = false ∧ g'.pause = false ∧
      g'.allow_move = false ∧ g'.frames_counter = 0 ∧
      (∀ i, (g'.snake i).position =
        ⟨((sw % SQUARE_SIZE : Int) : ℚ) / 2, ((sh % SQUARE_SIZE : Int) : ℚ) / 2⟩) ∧
      (g'.snake 0).speed = ⟨(SQUARE_SIZE : ℚ), 0⟩ ∧ g'.fruit.active = false) := by
  constructor
  · intro he
    exact update_over_stay g inp draws sw sh h he
  · intro he
    refine ⟨{ init_game g sw sh with game_over := false },
      update_over_enter g inp draws sw sh h he, rfl, rfl, rfl, rfl, rfl, rfl,
      fun i => rfl, rfl, rfl⟩

/-- Witness for C8 at a concrete game-over state and the ENTER input. -/
theorem claim_C8_witness :
    gOver.game_over = true ∧
    update_game gOver noInput [] 800 450 = .ok gOver ∧
    ∃ g', update_game gOver enterInput [] 800 450 = .ok g' ∧
      g'.counter_tail = 1 ∧ g'.frames_counter = 0 ∧
      (g'.snake 5).position = ⟨25 / 2, 8⟩ := by
  refine ⟨rfl, (claim_C8 gOver noInput [] 800 450 rfl).1 rfl, ?_⟩
  obtain ⟨g', hup, hg, hct, _, _, _, hfc, hpos, _, _⟩ :=
    (claim_C8 gOver enterInput [] 800 450 rfl).2 rfl
  refine ⟨g', hup, hct, hfc, ?_⟩
  rw [hpos 5]
  norm_num [SQUARE_SIZE]

/-- Result of the C3 counterexample frame: the P press on a paused state. -/
def cexC3 : GameState := okOr gPaused (update_game gPaused pInput [] 800 450)

/-- Counterexample to C3 as stated: on a paused, not-over frame, a
pause-toggle input does not merely flip the pause flag — the unpaused frame
body runs in the same call, so the frame counter changes too. -/
theorem claim_C3_counterexample :
    gPaused.game_over = false ∧ gPaused.pause = true ∧ pInput.keyP = true ∧
    update_game gPaused pInput [] 800 450 = .ok cexC3 ∧
    cexC3.pause = false ∧ cexC3.frames_counter ≠ gPaused.frames_counter := by
  refine ⟨rfl, rfl, rfl, by with_unfolding_all rfl, by with_unfolding_all rfl,
    by with_unfolding_all decide⟩

/-- Claim C3 (amended): a paused, not-over frame without a pause-toggle
input leaves the state unchanged; a pause-toggle input flips the pause flag
and then the frame proceeds exactly as a frame of the toggled state with the
toggle consumed (so unpausing runs the full frame body that same call); the
frame counter increments by exactly 1 on every frame that starts not-over
and is unpaused after the toggle, and is unchanged on frames paused after
the toggle and on game-over frames without a replay input. -/
theorem claim_C3 :
    (∀ (g : GameState) (inp : Input) (draws : List (Nat × Nat)) (sw sh : Int),
      g.game_over = false → g.pause = true → inp.keyP = false →
      update_game g inp draws sw sh = .ok g) ∧
    (∀ (g : GameState) (inp : Input) (draws : List (Nat × Nat)) (sw sh : Int),
      g.game_over = false → inp.keyP = true →
      update_game g inp draws sw sh =
        update_game { g with pause := !g.pause }
          ⟨inp.keyD, inp.keyA, inp.keyW, inp.keyS, false, inp.keyEnter⟩ draws sw sh) ∧
    (∀ (g g' : GameState) (inp : Input) (draws : List (Nat × Nat)) (sw sh : Int),
      g.game_over = false → (postToggle g inp).pause = false →
      update_game g inp draws sw sh = .ok g' →
      g'.frames_counter = g.frames_counter + 1) ∧
    (∀ (g : GameState) (inp : Input) (draws : List (Nat × Nat)) (sw sh : Int),
      g.game_over = false → (postToggle g inp).pause = true →
      update_game g inp draws sw sh = .ok (postToggle g inp) ∧
      (postToggle g inp).frames_counter = g.frames_counter) ∧
    (∀ (g : GameState) (inp : Input) (draws : List (Nat × Nat)) (sw sh : Int),
      g.game_over = true → inp.keyEnter = false →
      update_game g inp draws sw sh = .ok g) := by
  refine ⟨?_, ?_, ?_, ?_, ?_⟩
  · intro g inp draws sw sh hover hpause hP
    have ht : postToggle g inp = g := postToggle_no_p g inp hP
    rw [update_paused g inp draws sw sh hover (by rw [ht, hpause]), ht]
  · intro g inp draws sw sh hover hP
    have ht : postToggle g inp = { g with pause := !g.pause } := postToggle_p g inp hP
    have ht' : postToggle { g with pause := !g.pause }
        ⟨inp.keyD, inp.keyA, inp.keyW, inp.keyS, false, inp.keyEnter⟩ =
        { g with pause := !g.pause } := postToggle_no_p _ _ rfl
    have hoverR : ({ g with pause := !g.pause } : GameState).game_over = false := hover
    by_cases hp : (!g.pause) = true
    · rw [update_paused g inp draws sw sh hover (by rw [ht]; exact hp), ht,
          update_paused { g with pause := !g.pause }
            ⟨inp.keyD, inp.keyA, inp.keyW, inp.keyS, false, inp.keyEnter⟩ draws sw sh hoverR
            (by rw [ht']; exact hp), ht']
    · have hp' : ({ g with pause := !g.pause } : GameState).pause = false := by
        simp only [Bool.not_eq_true] at hp; exact hp
      rw [update_playing g inp draws sw sh hover (by rw [ht]; exact hp'), ht,
          update_playing { g with pause := !g.pause }
            ⟨inp.keyD, inp.keyA, inp.keyW, inp.keyS, false, inp.keyEnter⟩ draws sw sh hoverR
            (by rw [ht']; exact hp'), ht']
      exact runFrame_congr _ inp ⟨inp.keyD, inp.keyA, inp.keyW, inp.keyS, false, inp.keyEnter⟩
        draws sw sh rfl rfl rfl rfl
  · intro g g' inp draws sw sh hover hp h
    exact (update_ok_fields g g' inp draws sw sh hover hp h).1
  · intro g inp draws sw sh hover hp
    exact ⟨update_paused g inp draws sw sh hover hp, postToggle_frames_counter g inp⟩
  · intro g inp draws sw sh hover he
    exact update_over_stay g inp draws sw sh hover he

/-- Witness for C3 at concrete inputs: the paused fixture is frozen by an
input-free frame, and the P press from an unpaused state only toggles. -/
theorem claim_C3_witness :
    gPaused.game_over = false ∧ gPaused.pause = true ∧ noInput.keyP = false ∧
    update_game gPaused noInput [] 800 450 = .ok gPaused := by
  exact ⟨rfl, rfl, rfl, claim_C3.1 gPaused noInput [] 800 450 rfl rfl rfl⟩

/-! Helpers tying the mid-frame states to the final state of a frame. -/

theorem checkFood_ok_game_over (g g' : GameState) (h : checkFood g = .ok g') :
    g'.game_over = g.game_over := by
  rcases checkFood_ok_cases g g' h with ⟨-, hg⟩ | ⟨-, -, -, hg⟩ <;> subst hg <;> rfl

theorem selfHit_checkWall (g : GameState) (sw sh : Int) :
    selfHit (checkWall g sw sh) ↔ selfHit g := by
  unfold selfHit
  rw [checkWall_snake, checkWall_counter_tail]

/-- If the game-over flag is set right after the collision checks of a
successful frame, the frame's final state carries it. -/
theorem update_game_over_of_mid (g m g' : GameState) (inp : Input)
    (draws : List (Nat × Nat)) (sw sh : Int)
    (hover : g.game_over = false) (hp : (postToggle g inp).pause = false)
    (hmid : midMove (postToggle g inp) inp = .ok m)
    (hoverm : (checkSelf (checkWall m sw sh)).game_over = true)
    (h : update_game g inp draws sw sh = .ok g') :
    g'.game_over = true := by
  rw [update_playing g inp draws sw sh hover hp] at h
  obtain ⟨g7, g8, hmidsp, hfood, hg'⟩ := runFrame_ok_elim _ _ _ _ _ _ h
  obtain ⟨g4, rest, hmv, hspawn⟩ := midSpawn_ok_elim _ _ _ _ _ _ hmidsp
  rw [hmid] at hmv
  injection hmv with hmv
  subst hmv
  obtain ⟨-, -, hgo, -, -, -, -, -, -, -⟩ := spawnFruit_ok_proj _ _ _ _ _ _ hspawn
  subst hg'
  have h8 := checkFood_ok_game_over _ _ hfood
  simp only [h8, hgo, hoverm]

/-- Bookkeeping of the frame prefix up to the spawn step: the tail counter,
frame counter, offset and pause flag are unchanged, and the history buffer
holds the positions the live segments had at the start of the frame. -/
theorem midSpawn_fields (g m : GameState) (inp : Input) (draws : List (Nat × Nat))
    (sw sh : Int) (h : midSpawn g inp draws sw sh = .ok m) :
    m.counter_tail = g.counter_tail ∧ m.frames_counter = g.frames_counter ∧
    m.offset = g.offset ∧ m.pause = g.pause ∧
    (∀ i, i < g.counter_tail → m.snake_position i = (g.snake i).position) ∧
    g.counter_tail ≤ SNAKE_LENGTH := by
  obtain ⟨g4, rest, hmv, hspawn⟩ := midSpawn_ok_elim _ _ _ _ _ _ h
  obtain ⟨g3, hsnap, hg4⟩ := midMove_ok_elim _ _ _ hmv
  obtain ⟨hle, hg3⟩ := snapshot_ok_elim _ _ hsnap
  obtain ⟨-, hct, -, hpau, -, hfr, hoff, hsp, -, -⟩ := spawnFruit_ok_proj _ _ _ _ _ _ hspawn
  simp only [checkSelf_counter_tail, checkWall_counter_tail, checkSelf_frames_counter,
    checkWall_frames_counter, checkSelf_offset, checkWall_offset, checkSelf_pause,
    checkWall_pause, checkSelf_snake_position, checkWall_snake_position] at hct hpau hfr hoff hsp
  subst hg4 hg3
  refine ⟨by simpa using hct, by simpa using hfr, by simpa using hoff, by simpa using hpau,
    ?_, by simpa using hle⟩
  intro i hi
  rw [hsp]
  simp [hi]

/-- Claim C6: on a non-paused, not-over frame whose post-movement head
position is out of bounds on any side (beyond the window bound minus the
centering offset, or negative), the update sets the game-over flag; the
check runs on every frame, not only movement frames. -/
theorem claim_C6 (g m g' : GameState) (inp : Input) (draws : List (Nat × Nat)) (sw sh : Int)
    (hover : g.game_over = false) (hp : (postToggle g inp).pause = false)
    (hmid : midMove (postToggle g inp) inp = .ok m)
    (hwall : wallOut m sw sh)
    (h : update_game g inp draws sw sh = .ok g') :
    g'.game_over = true := by
  refine update_game_over_of_mid g m g' inp draws sw sh hover hp hmid ?_ h
  rw [checkWall_of_wallOut m sw sh hwall]
  exact checkSelf_over_mono _ rfl

/-- Claim C7: on a non-paused, not-over frame whose post-movement head
position exactly equals the position of another live segment, the update
sets the game-over flag. -/
theorem claim_C7 (g m g' : GameState) (inp : Input) (draws : List (Nat × Nat)) (sw sh : Int)
    (hover : g.game_over = false) (hp : (postToggle g inp).pause = false)
    (hmid : midMove (postToggle g inp) inp = .ok m)
    (hself : selfHit m)
    (h : update_game g inp draws sw sh = .ok g') :
    g'.game_over = true := by
  refine update_game_over_of_mid g m g' inp draws sw sh hover hp hmid ?_ h
  rw [checkSelf_of_selfHit _ ((selfHit_checkWall m sw sh).mpr hself)]

/-- Claim C5: on a non-paused, not-over frame where the head's square and
the fruit's square overlap at the consumption check, the tail counter grows
by exactly 1, the new segment at the old counter index takes the history
position recorded this frame for the previously-last live segment (the
start-of-frame position of that segment), and the fruit is deactivated. -/
theorem claim_C5 (g m g' : GameState) (inp : Input) (draws : List (Nat × Nat)) (sw sh : Int)
    (hover : g.game_over = false) (hp : (postToggle g inp).pause = false)
    (hmid : midSpawn (postToggle g inp) inp draws sw sh = .ok m)
    (hov : overlapHeadFruit m)
    (h : update_game g inp draws sw sh = .ok g') :
    g'.counter_tail = g.counter_tail + 1 ∧
    (g'.snake g.counter_tail).position = m.snake_position (g.counter_tail - 1) ∧
    (g.counter_tail - 1 < g.counter_tail →
      m.snake_position (g.counter_tail - 1) = (g.snake (g.counter_tail - 1)).position) ∧
    g'.fruit.active = false := by
  rw [update_playing g inp draws sw sh hover hp] at h
  obtain ⟨g7, g8, hmidsp, hfood, hg'⟩ := runFrame_ok_elim _ _ _ _ _ _ h
  rw [hmid] at hmidsp
  injection hmidsp with hmidsp
  subst hmidsp
  obtain ⟨hct, hfr, hoff, hpau, hhist, hle⟩ := midSpawn_fields _ _ _ _ _ _ hmid
  simp only [postToggle_counter_tail, postToggle_frames_counter, postToggle_offset,
    postToggle_snake, postToggle_snake_position] at hct hfr hoff hhist
  rcases checkFood_ok_cases _ _ hfood with ⟨hnov, -⟩ | ⟨-, h0, hlt, hg8⟩
  · exact absurd hov hnov
  · subst hg' hg8
    refine ⟨by simp [hct], ?_, ?_, rfl⟩
    · have : g.counter_tail = m.counter_tail := hct.symm
      simp [this]
    · intro hi
      exact hhist _ (by omega)

/-- Wall scenario: 800 by 450 window, head at the rightmost in-bounds cell
`x = 25/2 + 24*31` moving right, on a movement-tick frame. -/
def gWall : GameState :=
  { frames_counter := 5
    game_over := false
    pause := false
    allow_move := false
    counter_tail := 1
    offset := ⟨25, 16⟩
    snake := fun _ => segAt ⟨25 / 2 + 744, 8⟩
    snake_position := fun _ => ⟨0, 0⟩
    fruit := { position := ⟨25 / 2, 8 + 31⟩, size := ⟨(SQUARE_SIZE : ℚ), (SQUARE_SIZE : ℚ)⟩,
               active := true, color := Color.skyblue } }

/-- Post-movement state of the wall scenario. -/
def mWall : GameState := okOr gWall (midMove (postToggle gWall noInput) noInput)

/-- Final state of the wall scenario frame. -/
def gWallRes : GameState := okOr gWall (update_game gWall noInput [] 800 450)

/-- Witness for C6: the rightmost in-bounds cell scenario; the head is in
bounds before the tick and out of bounds after it, and the frame ends with
the game-over flag set. -/
theorem claim_C6_witness :
    gWall.game_over = false ∧ ¬ wallOut gWall 800 450 ∧
    gWall.frames_counter % 5 = 0 ∧ (gWall.snake 0).speed = ⟨(SQUARE_SIZE : ℚ), 0⟩ ∧
    update_game gWall noInput [] 800 450 = .ok gWallRes ∧
    gWallRes.game_over = true := by
  refine ⟨rfl, by with_unfolding_all decide, by with_unfolding_all decide, rfl,
    by with_unfolding_all rfl, ?_⟩
  exact claim_C6 gWall mWall gWallRes noInput [] 800 450 rfl (by with_unfolding_all rfl)
    (by with_unfolding_all rfl) (by with_unfolding_all decide) (by with_unfolding_all rfl)

/-- Self-collision scenario: a length-4 snake whose head sits on its third
segment's cell (index 2) at the self-collision check. -/
def gSelf : GameState :=
  { frames_counter := 1
    game_over := false
    pause := false
    allow_move := false
    counter_tail := 4
    offset := ⟨25, 16⟩
    snake := fun i =>
      if i = 1 then segAt ⟨25 / 2, 8⟩
      else if i = 3 then segAt ⟨25 / 2 + 62, 8⟩
      else segAt ⟨25 / 2 + 31, 8⟩
    snake_position := fun _ => ⟨0, 0⟩
    fruit := { position := ⟨25 / 2, 8 + 62⟩, size := ⟨(SQUARE_SIZE : ℚ), (SQUARE_SIZE : ℚ)⟩,
               active := true, color := Color.skyblue } }

/-- Post-movement state of the self-collision scenario. -/
def mSelf : GameState := okOr gSelf (midMove (postToggle gSelf noInput) noInput)

/-- Final state of the self-collision scenario frame. -/
def gSelfRes : GameState := okOr gSelf (update_game gSelf noInput [] 800 450)

/-- Witness for C7: a length-4 snake whose head occupies the third
segment's cell ends the frame with the game-over flag set. -/
theorem claim_C7_witness :
    gSelf.game_over = false ∧ gSelf.counter_tail = 4 ∧
    (mSelf.snake 0).position = (mSelf.snake 2).position ∧
    update_game gSelf noInput [] 800 450 = .ok gSelfRes ∧
    gSelfRes.game_over = true := by
  refine ⟨rfl, rfl, by with_unfolding_all rfl, by with_unfolding_all rfl, ?_⟩
  refine claim_C7 gSelf mSelf gSelfRes noInput [] 800 450 rfl (by with_unfolding_all rfl)
    (by with_unfolding_all rfl) ?_ (by with_unfolding_all rfl)
  exact ⟨2, by omega, by with_unfolding_all decide, by with_unfolding_all rfl⟩

/-- Eating scenario of the spec: a 775 by 434 window (zero offset), a
length-1 snake at cell `(0,0)` moving right, the fruit active at `(31,0)`,
on a movement-tick frame. -/
def gEat : GameState :=
  { frames_counter := 0
    game_over := false
    pause := false
    allow_move := false
    counter_tail := 1
    offset := ⟨0, 0⟩
    snake := fun _ => segAt ⟨0, 0⟩
    snake_position := fun _ => ⟨0, 0⟩
    fruit := { position := ⟨31, 0⟩, size := ⟨(SQUARE_SIZE : ℚ), (SQUARE_SIZE : ℚ)⟩,
               active := true, color := Color.skyblue } }

/-- State of the eating scenario at the consumption check. -/
def mEat : GameState := okOr gEat (midSpawn (postToggle gEat noInput) noInput [] 775 434)

/-- Final state of the eating scenario frame. -/
def gEatRes : GameState := okOr gEat (update_game gEat noInput [] 775 434)

/-- Witness for C5, the spec's concrete eating scenario: the movement tick
brings the head to `(31,0)`, the tail counter becomes 2, the new segment
sits at `(0,0)` and the fruit is deactivated. -/
theorem claim_C5_witness :
    gEat.game_over = false ∧ gEat.counter_tail = 1 ∧
    (mEat.snake 0).position = ⟨31, 0⟩ ∧
    update_game gEat noInput [] 775 434 = .ok gEatRes ∧
    gEatRes.counter_tail = 2 ∧ (gEatRes.snake 1).position = ⟨0, 0⟩ ∧
    gEatRes.fruit.active = false := by
  have hmain := claim_C5 gEat mEat gEatRes noInput [] 775 434 rfl
    (by with_unfolding_all rfl) (by with_unfolding_all rfl)
    (by with_unfolding_all decide) (by with_unfolding_all rfl)
  obtain ⟨hct, hpos, hhist, hact⟩ := hmain
  refine ⟨rfl, rfl, by with_unfolding_all rfl, by with_unfolding_all rfl, hct, ?_, hact⟩
  show (gEatRes.snake gEat.counter_tail).position = ⟨0, 0⟩
  rw [hpos, hhist (by with_unfolding_all decide)]
  with_unfolding_all rfl

/-! Error analysis of one frame, for the capacity claim. -/

theorem midMove_ok_of_le (g : GameState) (inp : Input) (h : g.counter_tail ≤ SNAKE_LENGTH) :
    ∃ g4, midMove g inp = .ok g4 := by
  unfold midMove
  rw [snapshot_ok (inputApplied g inp) (by simpa using h)]
  exact ⟨_, rfl⟩

theorem spawnLoop_error (seg : Vector2) (sw sh : Int) (off : Vector2)
    (draws : List (Nat × Nat)) :
    ∀ pos e, spawnLoop seg sw sh off pos draws = .error e → e = .noFuel := by
  induction draws with
  | nil =>
    intro pos e h
    unfold spawnLoop at h
    split at h
    · injection h with h; exact h.symm
    · cases h
  | cons d rest ih =>
    intro pos e h
    unfold spawnLoop at h
    split at h
    · exact ih _ e h
    · cases h

theorem spawnLoopAll_error (sw sh : Int) (off : Vector2) (segs : List Vector2) :
    ∀ pos draws e, spawnLoopAll sw sh off segs pos draws = .error e → e = .noFuel := by
  induction segs with
  | nil => intro pos draws e h; cases h
  | cons seg rest ih =>
    intro pos draws e h
    unfold spawnLoopAll at h
    split at h
    · rename_i e' hloop
      injection h with h
      subst h
      exact spawnLoop_error seg sw sh off draws pos e' hloop
    · rename_i pos1 draws1 hloop
      exact ih pos1 draws1 e h

theorem spawnFruit_error (g : GameState) (draws : List (Nat × Nat)) (sw sh : Int) (e : Err)
    (h : spawnFruit g draws sw sh = .error e) : e = .noFuel := by
  unfold spawnFruit at h
  split at h
  · cases h
  · match draws with
    | [] => injection h with h; exact h.symm
    | d :: rest =>
      dsimp only at h
      split at h
      · rename_i e' hloop
        injection h with h
        subst h
        exact spawnLoopAll_error sw sh g.offset _ _ _ e' hloop
      · cases h

theorem checkFood_error (g : GameState) (e : Err) (h : checkFood g = .error e) :
    g.counter_tail = 0 ∨ SNAKE_LENGTH ≤ g.counter_tail := by
  unfold checkFood at h
  split at h
  · split at h
    · rename_i hc; exact hc
    · cases h
  · cases h

/-- A full snake overlapping the fruit: the growth write would index the
segment array at its capacity. -/
def gFull : GameState :=
  { frames_counter := 1
    game_over := false
    pause := false
    allow_move := false
    counter_tail := 256
    offset := ⟨25, 16⟩
    snake := fun _ => segAt ⟨25 / 2, 8⟩
    snake_position := fun _ => ⟨0, 0⟩
    fruit := { position := ⟨25 / 2, 8⟩, size := ⟨(SQUARE_SIZE : ℚ), (SQUARE_SIZE : ℚ)⟩,
               active := true, color := Color.skyblue } }

/-- Claim C9: with a live length strictly below the capacity (and at least
1), no array access of the frame is out of bounds — the only possible error
of a frame is random-draw exhaustion in the unbounded resample loop; and
with the snake at full capacity and the head overlapping the fruit, the
unguarded growth write `snake[counter_tail]` hits the out-of-bounds branch. -/
theorem claim_C9 :
    (∀ (g : GameState) (inp : Input) (draws : List (Nat × Nat)) (sw sh : Int),
      1 ≤ g.counter_tail → g.counter_tail < SNAKE_LENGTH →
      ∀ e, update_game g inp draws sw sh = .error e → e = .noFuel) ∧
    gFull.counter_tail = SNAKE_LENGTH ∧
    update_game gFull noInput [] 800 450 = .error .oob := by
  refine ⟨?_, rfl, by with_unfolding_all rfl⟩
  intro g inp draws sw sh h1 h2 e h
  by_cases hover : g.game_over = true
  · by_cases he : inp.keyEnter = true
    · rw [update_over_enter g inp draws sw sh hover he] at h; cases h
    · rw [update_over_stay g inp draws sw sh hover (by simpa using he)] at h; cases h
  · have hover' : g.game_over = false := by simpa using hover
    by_cases hp : (postToggle g inp).pause = true
    · rw [update_paused g inp draws sw sh hover' hp] at h; cases h
    · rw [update_playing g inp draws sw sh hover' (by simpa using hp)] at h
      unfold runFrame at h
      obtain ⟨g4, h4⟩ := midMove_ok_of_le (postToggle g inp) inp (by simp; omega)
      rcases hm : midSpawn (postToggle g inp) inp draws sw sh with e' | g7
      · rw [hm] at h
        dsimp only at h
        injection h with h
        subst h
        unfold midSpawn at hm
        rw [h4] at hm
        dsimp only at hm
        split at hm
        · rename_i e'' hsp
          injection hm with hm
          subst hm
          exact spawnFruit_error _ draws sw sh e'' hsp
        · cases hm
      · rw [hm] at h
        dsimp only at h
        rcases hf : checkFood g7 with e' | g8
        · rw [hf] at h
          injection h with h
          subst h
          have hbad := checkFood_error g7 e' hf
          have hct : g7.counter_tail = g.counter_tail :=
            by simpa using (midSpawn_fields _ _ _ _ _ _ hm).1
          rw [hct] at hbad
          omega
        · rw [hf] at h
          cases h

/-- An unpaused state with an inactive fruit, used with an empty draw list
to exhaust the resample fuel. -/
def gNoFuel : GameState :=
  { gPaused with
    pause := false
    fruit := { gPaused.fruit with active := false } }

/-- Witness for C9: a snake well below capacity with an inactive fruit and
no random draws left errors only by fuel exhaustion, never out of bounds. -/
theorem claim_C9_witness :
    1 ≤ gNoFuel.counter_tail ∧ gNoFuel.counter_tail < SNAKE_LENGTH ∧
    update_game gNoFuel noInput [] 800 450 = .error .noFuel ∧
    Err.noFuel = Err.noFuel := by
  refine ⟨by decide, by decide, by with_unfolding_all rfl, ?_⟩
  exact claim_C9.1 gNoFuel noInput [] 800 450 (by decide) (by decide) .noFuel
    (by with_unfolding_all rfl)

/-- Motion anatomy of one successful unpaused frame: the head's speed is
the one computed from the inputs; on a movement tick the latch reopens, the
head advances by that speed and every other live segment takes the history
position of its predecessor; on a non-tick frame the latch is exactly the
input block's output and no live segment moves; and the history buffer
holds the start-of-frame positions of all live segments. -/
theorem update_ok_motion (g g' : GameState) (inp : Input) (draws : List (Nat × Nat))
    (sw sh : Int) (hover : g.game_over = false) (hp : (postToggle g inp).pause = false)
    (h : update_game g inp draws sw sh = .ok g') :
    (g'.snake 0).speed = (handleInput inp (g.snake 0).speed g.allow_move).1 ∧
    (g.frames_counter % 5 = 0 →
      g'.allow_move = true ∧
      (g'.snake 0).position = ⟨(g.snake 0).position.x + (g'.snake 0).speed.x,
                               (g.snake 0).position.y + (g'.snake 0).speed.y⟩ ∧
      (∀ i, 1 ≤ i → i < g.counter_tail →
        (g'.snake i).position = g'.snake_position (i - 1))) ∧
    (¬ g.frames_counter % 5 = 0 →
      g'.allow_move = (handleInput inp (g.snake 0).speed g.allow_move).2 ∧
      (∀ i, i < g.counter_tail → (g'.snake i).position = (g.snake i).position)) ∧
    (∀ i, i < g.counter_tail → g'.snake_position i = (g.snake i).position) := by
  rw [update_playing g inp draws sw sh hover hp] at h
  obtain ⟨g7, g8, hmidsp, hfood, hg'⟩ := runFrame_ok_elim _ _ _ _ _ _ h
  obtain ⟨g4, rest, hmv, hspawn⟩ := midSpawn_ok_elim _ _ _ _ _ _ hmidsp
  obtain ⟨g3, hsnap, hg4⟩ := midMove_ok_elim _ _ _ hmv
  obtain ⟨hle, hg3⟩ := snapshot_ok_elim _ _ hsnap
  obtain ⟨hsnake7, hct7, -, -, hal7, -, -, hsp7, -, -⟩ := spawnFruit_ok_proj _ _ _ _ _ _ hspawn
  simp only [checkSelf_snake, checkWall_snake, checkSelf_counter_tail, checkWall_counter_tail,
    checkSelf_allow_move, checkWall_allow_move, checkSelf_snake_position,
    checkWall_snake_position] at hsnake7 hct7 hal7 hsp7
  have hct3 : g3.counter_tail = g.counter_tail := by rw [hg3]; simp
  have hfr3 : g3.frames_counter = g.frames_counter := by rw [hg3]; simp
  have hct4 : g4.counter_tail = g.counter_tail := by rw [hg4]; simp [hct3]
  have hsp4 : g4.snake_position = g3.snake_position := by rw [hg4]; simp
  have hsp3 : ∀ i, i < g.counter_tail → g3.snake_position i = (g.snake i).position := by
    intro i hi
    rw [hg3]
    simp [hi]
  have hpos3 : ∀ i, (g3.snake i).position = (g.snake i).position := by
    intro i
    rw [hg3]
    simp
  have hspeed3 : (g3.snake 0).speed = (handleInput inp (g.snake 0).speed g.allow_move).1 := by
    rw [hg3]
    simp
  have hal3 : g3.allow_move = (handleInput inp (g.snake 0).speed g.allow_move).2 := by
    rw [hg3]
    simp
  -- the final state's arrays in terms of the post-spawn state
  have hg'snake0 : g'.snake 0 = g7.snake 0 := by
    rcases checkFood_ok_cases _ _ hfood with ⟨-, hg8⟩ | ⟨-, h0, -, hg8⟩ <;> subst hg' <;> subst hg8
    · rfl
    · have hne : (0 : Nat) ≠ g7.counter_tail := fun hc => h0 hc.symm
      simp [hne]
  have hg'snake : ∀ i, i < g.counter_tail → g'.snake i = g7.snake i := by
    intro i hi
    rcases checkFood_ok_cases _ _ hfood with ⟨-, hg8⟩ | ⟨-, h0, -, hg8⟩ <;> subst hg' <;> subst hg8
    · rfl
    · have hne : i ≠ g7.counter_tail := by rw [hct7, hct4]; omega
      simp [hne]
  have hg'sp : g'.snake_position = g3.snake_position := by
    rcases checkFood_ok_cases _ _ hfood with ⟨-, hg8⟩ | ⟨-, h0, -, hg8⟩ <;> subst hg' <;> subst hg8 <;>
      simp [hsp7, hsp4]
  have hg'al : g'.allow_move = g4.allow_move := by
    rcases checkFood_ok_cases _ _ hfood with ⟨-, hg8⟩ | ⟨-, h0, -, hg8⟩ <;> subst hg' <;> subst hg8 <;>
      simp [hal7]
  have hspd : (g'.snake 0).speed = (handleInput inp (g.snake 0).speed g.allow_move).1 := by
    rw [hg'snake0, hsnake7, hg4]
    simp [hspeed3]
  refine ⟨hspd, ?_, ?_, ?_⟩
  · intro htick
    have htick3 : g3.frames_counter % 5 = 0 := by rw [hfr3]; exact htick
    have hmove := moveSnake_tick g3 htick3
    refine ⟨?_, ?_, ?_⟩
    · rw [hg'al, hg4, hmove]
    · rw [hspd, hg'snake0, hsnake7, hg4, hmove]
      simp [hpos3, hspeed3]
    · intro i h1 hi
      have hne : i ≠ 0 := by omega
      have hlt3 : i < g3.counter_tail := by rw [hct3]; exact hi
      rw [hg'snake i hi, hsnake7, hg4, hmove, hg'sp]
      simp [hne, hlt3]
  · intro hnt
    have hnt3 : ¬ g3.frames_counter % 5 = 0 := by rw [hfr3]; exact hnt
    have hmove := moveSnake_not_tick g3 hnt3
    refine ⟨?_, ?_⟩
    · rw [hg'al, hg4, hmove, hal3]
    · intro i hi
      rw [hg'snake i hi, hsnake7, hg4, hmove, hpos3 i]
  · intro i hi
    rw [hg'sp]
    exact hsp3 i hi

/-- Claim C4: on a movement tick of a non-paused, not-over frame, every
live segment except the head takes the history position of its predecessor
(the snapshot taken this frame, which is the predecessor's start-of-frame
position), the head advances by exactly its current speed, and the latch
reopens; on a non-tick frame no live segment's position changes. -/
theorem claim_C4 (g g' : GameState) (inp : Input) (draws : List (Nat × Nat)) (sw sh : Int)
    (hover : g.game_over = false) (hp : (postToggle g inp).pause = false)
    (h : update_game g inp draws sw sh = .ok g') :
    (g.frames_counter % 5 = 0 →
      (∀ i, 1 ≤ i → i < g.counter_tail →
        (g'.snake i).position = g'.snake_position (i - 1) ∧
        g'.snake_position (i - 1) = (g.snake (i - 1)).position) ∧
      (g'.snake 0).position = ⟨(g.snake 0).position.x + (g'.snake 0).speed.x,
                               (g.snake 0).position.y + (g'.snake 0).speed.y⟩ ∧
      g'.allow_move = true) ∧
    (¬ g.frames_counter % 5 = 0 →
      ∀ i, i < g.counter_tail → (g'.snake i).position = (g.snake i).position) := by
  obtain ⟨hspd, htick, hnt, hhist⟩ := update_ok_motion g g' inp draws sw sh hover hp h
  constructor
  · intro ht
    obtain ⟨hal, hhead, hbody⟩ := htick ht
    refine ⟨?_, hhead, hal⟩
    intro i h1 hi
    exact ⟨hbody i h1 hi, hhist (i - 1) (by omega)⟩
  · intro ht
    exact (hnt ht).2

/-- Movement-tick scenario: a length-2 snake moving right on a tick frame. -/
def gMove : GameState :=
  { frames_counter := 0
    game_over := false
    pause := false
    allow_move := false
    counter_tail := 2
    offset := ⟨25, 16⟩
    snake := fun i =>
      if i = 0 then segAt ⟨25 / 2 + 31, 8⟩ else segAt ⟨25 / 2, 8⟩
    snake_position := fun _ => ⟨0, 0⟩
    fruit := { position := ⟨25 / 2, 8 + 62⟩, size := ⟨(SQUARE_SIZE : ℚ), (SQUARE_SIZE : ℚ)⟩,
               active := true, color := Color.skyblue } }

/-- Final state of the movement-tick scenario. -/
def gMoveRes : GameState := okOr gMove (update_game gMove noInput [] 800 450)

/-- Witness for C4: on the tick, the second segment takes the head's old
cell, the head advances one cell to the right, and the latch reopens. -/
theorem claim_C4_witness :
    gMove.game_over = false ∧ gMove.frames_counter % 5 = 0 ∧
    update_game gMove noInput [] 800 450 = .ok gMoveRes ∧
    gMoveRes.allow_move = true ∧
    (gMoveRes.snake 1).position = (gMove.snake 0).position ∧
    (gMoveRes.snake 0).position = ⟨25 / 2 + 62, 8⟩ := by
  have hmain := claim_C4 gMove gMoveRes noInput [] 800 450 rfl
    (by with_unfolding_all rfl) (by with_unfolding_all rfl)
  obtain ⟨ht, -⟩ := hmain
  obtain ⟨hpairs, hhead, hal⟩ := ht (by decide)
  refine ⟨rfl, by decide, by with_unfolding_all rfl, hal, ?_, ?_⟩
  · obtain ⟨h1, h2⟩ := hpairs 1 (by decide) (by decide)
    rw [h1]
    exact h2
  · rw [hhead]
    with_unfolding_all decide

/-! Multi-frame direction-change accounting for the latch claim. -/

/-- A run of frames is good when every frame starts not-over, ends the
pause toggle unpaused, and is not a movement tick. -/
def goodRun (sw sh : Int) : GameState → List (Input × List (Nat × Nat)) → Prop
  | _, [] => True
  | g, f :: rest =>
    g.game_over = false ∧ (postToggle g f.1).pause = false ∧
    ¬ g.frames_counter % 5 = 0 ∧
    ∀ g', update_game g f.1 f.2 sw sh = .ok g' → goodRun sw sh g' rest

/-- Number of frames of a run on which the head's speed changes. -/
def dirChanges (sw sh : Int) : GameState → List (Input × List (Nat × Nat)) → Nat
  | _, [] => 0
  | g, f :: rest =>
    match update_game g f.1 f.2 sw sh with
    | .error _ => 0
    | .ok g' =>
      (if (g'.snake 0).speed = (g.snake 0).speed then 0 else 1) + dirChanges sw sh g' rest

/-- On a non-tick frame, an unchanged speed carries the latch through, and
a changed speed proves the latch was open and closes it. -/
theorem step_latch (g g' : GameState) (inp : Input) (draws : List (Nat × Nat)) (sw sh : Int)
    (hover : g.game_over = false) (hp : (postToggle g inp).pause = false)
    (hnt : ¬ g.frames_counter % 5 = 0)
    (h : update_game g inp draws sw sh = .ok g') :
    ((g'.snake 0).speed = (g.snake 0).speed → g'.allow_move = g.allow_move) ∧
    ((g'.snake 0).speed ≠ (g.snake 0).speed →
      g.allow_move = true ∧ g'.allow_move = false) := by
  obtain ⟨hspd, -, hntc, -⟩ := update_ok_motion g g' inp draws sw sh hover hp h
  obtain ⟨hal, -⟩ := hntc hnt
  rcases handleInput_spec inp (g.snake 0).speed g.allow_move with hcase | ⟨ham, hlat, hax⟩
  · constructor
    · intro _
      rw [hal, hcase]
    · intro hne
      exact absurd (by rw [hspd, hcase]) hne
  · have hSne : (SQUARE_SIZE : ℚ) ≠ 0 := by norm_num [SQUARE_SIZE]
    have hne : (handleInput inp (g.snake 0).speed g.allow_move).1 ≠ (g.snake 0).speed := by
      rcases hax with ⟨h0, hc | hc⟩ | ⟨h0, hc | hc⟩ <;> rw [hc] <;> intro hcon <;>
        rw [← hcon] at h0 <;> simp only [neg_eq_zero] at h0 <;> exact hSne h0
    constructor
    · intro heq
      exact absurd (hspd.symm.trans heq) hne
    · intro _
      exact ⟨ham, by rw [hal, hlat]⟩

/-- With the latch closed at the start, a tick-free good run accepts no
direction change at all. -/
theorem dirChanges_zero (sw sh : Int) (run : List (Input × List (Nat × Nat))) :
    ∀ g, g.allow_move = false → goodRun sw sh g run → dirChanges sw sh g run = 0 := by
  induction run with
  | nil => intro g _ _; rfl
  | cons f rest ih =>
    intro g ham hrun
    obtain ⟨hover, hp, hnt, hnext⟩ := hrun
    unfold dirChanges
    rcases hu : update_game g f.1 f.2 sw sh with e | g'
    · rfl
    · dsimp only
      by_cases hsp : (g'.snake 0).speed = (g.snake 0).speed
      · rw [if_pos hsp]
        have hlat := (step_latch g g' f.1 f.2 sw sh hover hp hnt hu).1 hsp
        rw [ih g' (hlat.trans ham) (hnext g' hu)]
      · exact absurd ((step_latch g g' f.1 f.2 sw sh hover hp hnt hu).2 hsp).1
          (by rw [ham]; exact Bool.false_ne_true)

/-- A tick-free good run accepts at most one direction change. -/
theorem dirChanges_le_one (sw sh : Int) (run : List (Input × List (Nat × Nat))) :
    ∀ g, goodRun sw sh g run → dirChanges sw sh g run ≤ 1 := by
  induction run with
  | nil => intro g _; exact Nat.zero_le 1
  | cons f rest ih =>
    intro g hrun
    obtain ⟨hover, hp, hnt, hnext⟩ := hrun
    unfold dirChanges
    rcases hu : update_game g f.1 f.2 sw sh with e | g'
    · exact Nat.zero_le 1
    · dsimp only
      by_cases hsp : (g'.snake 0).speed = (g.snake 0).speed
      · rw [if_pos hsp]
        simpa using ih g' (hnext g' hu)
      · rw [if_neg hsp]
        have hstep := (step_latch g g' f.1 f.2 sw sh hover hp hnt hu).2 hsp
        have hz := dirChanges_zero sw sh rest g' hstep.2 (hnext g' hu)
        omega

/-- Claim C2: direction inputs change the head's speed only when the
matching axis of the current speed is zero and the latch is open (so a
left or right key is ignored outright while the horizontal speed is
nonzero, whatever the latch); accepting a change closes the latch, a
movement tick reopens it, and between ticks at most one change is ever
accepted no matter how many key events arrive. -/
theorem claim_C2 :
    (∀ (inp : Input) (sp : Vector2) (am : Bool), sp.x ≠ 0 →
      handleInput inp sp am =
        handleInput ⟨false, false, inp.keyW, inp.keyS, inp.keyP, inp.keyEnter⟩ sp am) ∧
    (∀ (inp : Input) (sp : Vector2), handleInput inp sp false = (sp, false)) ∧
    (∀ (inp : Input) (sp : Vector2) (am : Bool), (handleInput inp sp am).1 ≠ sp →
      am = true ∧ (handleInput inp sp am).2 = false ∧
      (((handleInput inp sp am).1 = ⟨(SQUARE_SIZE : ℚ), 0⟩ ∨
        (handleInput inp sp am).1 = ⟨-(SQUARE_SIZE : ℚ), 0⟩) → sp.x = 0) ∧
      (((handleInput inp sp am).1 = ⟨0, -(SQUARE_SIZE : ℚ)⟩ ∨
        (handleInput inp sp am).1 = ⟨0, (SQUARE_SIZE : ℚ)⟩) → sp.y = 0)) ∧
    (∀ (g g' : GameState) (inp : Input) (draws : List (Nat × Nat)) (sw sh : Int),
      g.game_over = false → (postToggle g inp).pause = false →
      update_game g inp draws sw sh = .ok g' →
      (g'.snake 0).speed = (handleInput inp (g.snake 0).speed g.allow_move).1 ∧
      (g.frames_counter % 5 = 0 → g'.allow_move = true) ∧
      (¬ g.frames_counter % 5 = 0 →
        g'.allow_move = (handleInput inp (g.snake 0).speed g.allow_move).2)) ∧
    (∀ (sw sh : Int) (g : GameState) (run : List (Input × List (Nat × Nat))),
      goodRun sw sh g run → dirChanges sw sh g run ≤ 1) := by
  refine ⟨handleInput_horiz_ignored, handleInput_latch_false, ?_, ?_, ?_⟩
  · intro inp sp am hne
    rcases handleInput_spec inp sp am with hcase | ⟨ham, hlat, hax⟩
    · exact absurd (by rw [hcase]) hne
    · refine ⟨ham, hlat, ?_, ?_⟩
      · rcases hax with ⟨h0, -⟩ | ⟨-, hc | hc⟩
        · exact fun _ => h0
        · intro hv
          rcases hv with hv | hv <;> rw [hc] at hv <;>
            exact absurd hv (by with_unfolding_all decide)
        · intro hv
          rcases hv with hv | hv <;> rw [hc] at hv <;>
            exact absurd hv (by with_unfolding_all decide)
      · rcases hax with ⟨-, hc | hc⟩ | ⟨h0, -⟩
        · intro hv
          rcases hv with hv | hv <;> rw [hc] at hv <;>
            exact absurd hv (by with_unfolding_all decide)
        · intro hv
          rcases hv with hv | hv <;> rw [hc] at hv <;>
            exact absurd hv (by with_unfolding_all decide)
        · exact fun _ => h0
  · intro g g' inp draws sw sh hover hp h
    obtain ⟨hspd, htick, hnt, -⟩ := update_ok_motion g g' inp draws sw sh hover hp h
    exact ⟨hspd, fun ht => (htick ht).1, fun ht => (hnt ht).1⟩
  · intro sw sh g run hrun
    exact dirChanges_le_one sw sh run g hrun

/-- Frame with only A pressed. -/
def aInput : Input := ⟨false, true, false, false, false, false⟩

/-- Witness for C2: with rightward speed an A press is ignored, and a
concrete one-frame tick-free run accepts at most one change. -/
theorem claim_C2_witness :
    ((⟨(SQUARE_SIZE : ℚ), 0⟩ : Vector2).x ≠ 0) ∧
    handleInput aInput ⟨(SQUARE_SIZE : ℚ), 0⟩ true =
      handleInput ⟨false, false, false, false, false, false⟩ ⟨(SQUARE_SIZE : ℚ), 0⟩ true ∧
    goodRun 800 450 gSelf [(aInput, [])] ∧
    dirChanges 800 450 gSelf [(aInput, [])] ≤ 1 := by
  have hrun : goodRun 800 450 gSelf [(aInput, [])] := by
    unfold goodRun
    exact ⟨rfl, by with_unfolding_all rfl, by decide, fun g' _ => trivial⟩
  refine ⟨by with_unfolding_all decide,
    claim_C2.1 aInput ⟨(SQUARE_SIZE : ℚ), 0⟩ true (by with_unfolding_all decide), hrun,
    claim_C2.2.2.2.2 800 450 gSelf [(aInput, [])] hrun⟩

/-- State exhibiting the resampling flaw: a length-3 snake in a row with an
inactive fruit, on a non-tick frame. -/
def gBug : GameState :=
  { frames_counter := 1
    game_over := false
    pause := false
    allow_move := true
    counter_tail := 3
    offset := ⟨25, 16⟩
    snake := fun i =>
      if i = 0 then segAt ⟨25 / 2, 8⟩
      else if i = 1 then segAt ⟨25 / 2 + 31, 8⟩
      else if i = 2 then segAt ⟨25 / 2 + 62, 8⟩
      else segAt ⟨0, 0⟩
    snake_position := fun _ => ⟨0, 0⟩
    fruit := { position := ⟨0, 0⟩, size := ⟨(SQUARE_SIZE : ℚ), (SQUARE_SIZE : ℚ)⟩,
               active := false, color := Color.skyblue } }

/-- State of the bug scenario right after the spawn step. -/
def mBug : GameState :=
  okOr gBug (midSpawn (postToggle gBug noInput) noInput [(2, 0), (1, 0)] 800 450)

/-- Final state of the bug scenario frame. -/
def gBugRes : GameState := okOr gBug (update_game gBug noInput [(2, 0), (1, 0)] 800 450)

/-- Claim C1 fails on the code: with draws first hitting the last segment's
cell and then resampling onto an already-checked segment's cell, the
rejection loop terminates with the fruit active on the second segment, both
immediately after the spawn step and in the frame's final state. -/
theorem claim_C1 :
    gBug.fruit.active = false ∧ gBug.game_over = false ∧ gBug.pause = false ∧
    midSpawn (postToggle gBug noInput) noInput [(2, 0), (1, 0)] 800 450 = .ok mBug ∧
    mBug.fruit.active = true ∧ 1 < mBug.counter_tail ∧
    mBug.fruit.position = (mBug.snake 1).position ∧
    update_game gBug noInput [(2, 0), (1, 0)] 800 450 = .ok gBugRes ∧
    gBugRes.fruit.active = true ∧ 1 < gBugRes.counter_tail ∧
    gBugRes.fruit.position = (gBugRes.snake 1).position := by
  refine ⟨rfl, rfl, rfl, by with_unfolding_all rfl, by with_unfolding_all rfl,
    by with_unfolding_all decide, by with_unfolding_all decide, by with_unfolding_all rfl,
    by with_unfolding_all rfl, by with_unfolding_all decide, by with_unfolding_all decide⟩

/-! Grid alignment: the implicit invariant of claim C10. -/

/-- A point on the grid anchored at half the centering offset: both
coordinates are the anchor plus an integer multiple of the square size. -/
def alignedPt (off p : Vector2) : Prop :=
  (∃ j : ℤ, p.x = off.x / 2 + (j : ℚ) * (SQUARE_SIZE : ℚ)) ∧
  (∃ k : ℤ, p.y = off.y / 2 + (k : ℚ) * (SQUARE_SIZE : ℚ))

/-- The four axis-aligned speeds of magnitude `SQUARE_SIZE` — the only
speeds `init_game` and the input block ever produce. -/
def speedOK (v : Vector2) : Prop :=
  v = ⟨(SQUARE_SIZE : ℚ), 0⟩ ∨ v = ⟨-(SQUARE_SIZE : ℚ), 0⟩ ∨
  v = ⟨0, -(SQUARE_SIZE : ℚ)⟩ ∨ v = ⟨0, (SQUARE_SIZE : ℚ)⟩

/-- An active fruit sits on an in-bounds grid cell: its position is a cell
index below `dim / SQUARE_SIZE` on each axis, scaled and offset-corrected. -/
def fruitInGrid (g : GameState) (screen_width screen_height : Int) : Prop :=
  g.fruit.active = true →
  ∃ j k : ℕ, j < (screen_width / SQUARE_SIZE).toNat ∧
    k < (screen_height / SQUARE_SIZE).toNat ∧
    g.fruit.position = ⟨(j : ℚ) * (SQUARE_SIZE : ℚ) + g.offset.x / 2,
                        (k : ℚ) * (SQUARE_SIZE : ℚ) + g.offset.y / 2⟩

/-- The grid-alignment invariant: every live segment is grid-aligned, the
head's speed is one of the four unit moves, and an active fruit is on an
in-bounds cell. -/
def GridAligned (g : GameState) (screen_width screen_height : Int) : Prop :=
  (∀ i, i < g.counter_tail → alignedPt g.offset (g.snake i).position) ∧
  speedOK ((g.snake 0).speed) ∧ fruitInGrid g screen_width screen_height

theorem alignedPt_step (off p v : Vector2) (hp : alignedPt off p) (hv : speedOK v) :
    alignedPt off ⟨p.x + v.x, p.y + v.y⟩ := by
  obtain ⟨⟨j, hj⟩, ⟨k, hk⟩⟩ := hp
  rcases hv with hv | hv | hv | hv <;> subst hv
  · exact ⟨⟨j + 1, by rw [hj]; push_cast; ring⟩, ⟨k, by rw [hk]; push_cast; ring⟩⟩
  · exact ⟨⟨j - 1, by rw [hj]; push_cast; ring⟩, ⟨k, by rw [hk]; push_cast; ring⟩⟩
  · exact ⟨⟨j, by rw [hj]; push_cast; ring⟩, ⟨k - 1, by rw [hk]; push_cast; ring⟩⟩
  · exact ⟨⟨j, by rw [hj]; push_cast; ring⟩, ⟨k + 1, by rw [hk]; push_cast; ring⟩⟩

theorem handleInput_speedOK (inp : Input) (sp : Vector2) (am : Bool) (h : speedOK sp) :
    speedOK (handleInput inp sp am).1 := by
  rcases handleInput_spec inp sp am with hcase | ⟨-, -, ⟨-, hc | hc⟩ | ⟨-, hc | hc⟩⟩
  · rw [hcase]; exact h
  · exact Or.inl hc
  · exact Or.inr (Or.inl hc)
  · exact Or.inr (Or.inr (Or.inl hc))
  · exact Or.inr (Or.inr (Or.inr hc))

theorem samplePos_inGrid (d : Nat × Nat) (sw sh : Int) (off : Vector2)
    (hw : 0 < (sw / SQUARE_SIZE).toNat) (hh : 0 < (sh / SQUARE_SIZE).toNat) :
    ∃ j k : ℕ, j < (sw / SQUARE_SIZE).toNat ∧ k < (sh / SQUARE_SIZE).toNat ∧
      samplePos d sw sh off = ⟨(j : ℚ) * (SQUARE_SIZE : ℚ) + off.x / 2,
                              (k : ℚ) * (SQUARE_SIZE : ℚ) + off.y / 2⟩ :=
  ⟨d.1 % (sw / SQUARE_SIZE).toNat, d.2 % (sh / SQUARE_SIZE).toNat,
    Nat.mod_lt _ hw, Nat.mod_lt _ hh, rfl⟩

theorem GridAligned_of_eq (g g' : GameState) (sw sh : Int)
    (hs : g'.snake = g.snake) (hc : g'.counter_tail = g.counter_tail)
    (ho : g'.offset = g.offset) (hf : g'.fruit = g.fruit)
    (h : GridAligned g sw sh) : GridAligned g' sw sh := by
  obtain ⟨ha, hsp, hfr⟩ := h
  refine ⟨?_, ?_, ?_⟩
  · intro i hi
    rw [hs, ho]
    exact ha i (hc ▸ hi)
  · rw [hs]
    exact hsp
  · intro hact
    unfold fruitInGrid at hfr
    rw [hf] at hact
    obtain ⟨j, k, hj, hk, hpos⟩ := hfr hact
    exact ⟨j, k, hj, hk, by rw [hf, ho]; exact hpos⟩

theorem GridAligned_init (g : GameState) (sw sh : Int) :
    GridAligned (init_game g sw sh) sw sh := by
  refine ⟨?_, Or.inl rfl, ?_⟩
  · intro i hi
    exact ⟨⟨0, by simp⟩, ⟨0, by simp⟩⟩
  · intro hact
    simp at hact

/-- Growth anatomy of one successful unpaused frame: either the tail
counter is unchanged, or it grew by one and the new segment at the old
counter index sits at the history position of the old last segment, with
the fruit deactivated. -/
theorem update_ok_growth (g g' : GameState) (inp : Input) (draws : List (Nat × Nat))
    (sw sh : Int) (hover : g.game_over = false) (hp : (postToggle g inp).pause = false)
    (h : update_game g inp draws sw sh = .ok g') :
    g'.counter_tail = g.counter_tail ∨
    (g'.counter_tail = g.counter_tail + 1 ∧ 1 ≤ g.counter_tail ∧
      (g'.snake g.counter_tail).position = g'.snake_position (g.counter_tail - 1) ∧
      g'.fruit.active = false) := by
  rw [update_playing g inp draws sw sh hover hp] at h
  obtain ⟨g7, g8, hmidsp, hfood, hg'⟩ := runFrame_ok_elim _ _ _ _ _ _ h
  have hct7 : g7.counter_tail = g.counter_tail := by
    simpa using (midSpawn_fields _ _ _ _ _ _ hmidsp).1
  rcases checkFood_ok_cases _ _ hfood with ⟨-, hg8⟩ | ⟨-, h0, -, hg8⟩ <;> subst hg' <;> subst hg8
  · exact Or.inl hct7
  · refine Or.inr ⟨by simp [hct7], by omega, ?_, rfl⟩
    have : g.counter_tail = g7.counter_tail := hct7.symm
    simp [this]

/-- Fruit anatomy of one successful unpaused frame: the fruit ends
inactive, or it was already active and did not move, or its position is the
image of some draw under `samplePos`. -/
theorem update_ok_fruit (g g' : GameState) (inp : Input) (draws : List (Nat × Nat))
    (sw sh : Int) (hover : g.game_over = false) (hp : (postToggle g inp).pause = false)
    (h : update_game g inp draws sw sh = .ok g') :
    g'.fruit.active = false ∨
    (g.fruit.active = true ∧ g'.fruit.position = g.fruit.position) ∨
    ∃ d : Nat × Nat, g'.fruit.position = samplePos d sw sh g.offset := by
  rw [update_playing g inp draws sw sh hover hp] at h
  obtain ⟨g7, g8, hmidsp, hfood, hg'⟩ := runFrame_ok_elim _ _ _ _ _ _ h
  obtain ⟨g4, rest, hmv, hspawn⟩ := midSpawn_ok_elim _ _ _ _ _ _ hmidsp
  obtain ⟨g3, hsnap, hg4⟩ := midMove_ok_elim _ _ _ hmv
  obtain ⟨hle, hg3⟩ := snapshot_ok_elim _ _ hsnap
  have hfruit6 : (checkSelf (checkWall g4 sw sh)).fruit = g.fruit := by
    rw [checkSelf_fruit, checkWall_fruit, hg4, moveSnake_fruit, hg3]
    simp
  have hoff6 : (checkSelf (checkWall g4 sw sh)).offset = g.offset := by
    rw [checkSelf_offset, checkWall_offset, hg4, moveSnake_offset, hg3]
    simp
  rcases checkFood_ok_cases _ _ hfood with ⟨-, hg8⟩ | ⟨-, -, -, hg8⟩
  · have hfr' : g'.fruit = g7.fruit := by rw [hg']; show g8.fruit = g7.fruit; rw [hg8]
    by_cases hact : (checkSelf (checkWall g4 sw sh)).fruit.active = true
    · rw [spawnFruit_active _ draws sw sh hact] at hspawn
      injection hspawn with hsp
      injection hsp with h71 h72
      refine Or.inr (Or.inl ⟨?_, ?_⟩)
      · rw [← hfruit6]
        exact hact
      · rw [hfr', ← h71, hfruit6]
    · have hact' : (checkSelf (checkWall g4 sw sh)).fruit.active = false := by
        simpa using hact
      obtain ⟨d, hd⟩ := spawnFruit_pos_shape _ g7 draws rest sw sh hact' hspawn
      refine Or.inr (Or.inr ⟨d, ?_⟩)
      rw [hfr', hd, hoff6]
  · refine Or.inl ?_
    rw [hg']
    show g8.fruit.active = false
    rw [hg8]

/-- Claim C10: grid alignment is established by `init_game` and preserved
by every update step — every live segment stays on the grid anchored at
half the centering offset, the head's speed stays one of the four unit
moves, and an active fruit stays on an in-bounds grid cell (given at least
one grid cell on each axis). -/
theorem claim_C10 :
    (∀ (g : GameState) (sw sh : Int), GridAligned (init_game g sw sh) sw sh) ∧
    (∀ (g g' : GameState) (inp : Input) (draws : List (Nat × Nat)) (sw sh : Int),
      0 < sw / SQUARE_SIZE → 0 < sh / SQUARE_SIZE →
      GridAligned g sw sh → update_game g inp draws sw sh = .ok g' →
      GridAligned g' sw sh) := by
  refine ⟨GridAligned_init, ?_⟩
  intro g g' inp draws sw sh hw hh hga h
  by_cases hover : g.game_over = true
  · by_cases he : inp.keyEnter = true
    · rw [update_over_enter g inp draws sw sh hover he] at h
      injection h with h
      subst h
      exact GridAligned_of_eq (init_game g sw sh) _ sw sh rfl rfl rfl rfl
        (GridAligned_init g sw sh)
    · rw [update_over_stay g inp draws sw sh hover (by simpa using he)] at h
      injection h with h
      subst h
      exact hga
  · have hover' : g.game_over = false := by simpa using hover
    by_cases hp : (postToggle g inp).pause = true
    · rw [update_paused g inp draws sw sh hover' hp] at h
      injection h with h
      subst h
      exact GridAligned_of_eq g (postToggle g inp) sw sh (postToggle_snake g inp)
        (postToggle_counter_tail g inp) (postToggle_offset g inp) (postToggle_fruit g inp) hga
    · have hp' : (postToggle g inp).pause = false := by simpa using hp
      obtain ⟨ha, hsp, hfr⟩ := hga
      have hoff := (update_ok_fields g g' inp draws sw sh hover' hp' h).2.2
      obtain ⟨hspd, htickc, hntc, hhist⟩ := update_ok_motion g g' inp draws sw sh hover' hp' h
      have hspd' : speedOK ((g'.snake 0).speed) := by
        rw [hspd]
        exact handleInput_speedOK inp _ _ hsp
      have hgrow := update_ok_growth g g' inp draws sw sh hover' hp' h
      have hfruit := update_ok_fruit g g' inp draws sw sh hover' hp' h
      have hseg : ∀ i, i < g.counter_tail → alignedPt g.offset ((g'.snake i).position) := by
        intro i hi
        by_cases ht : g.frames_counter % 5 = 0
        · obtain ⟨-, hhead, hbody⟩ := htickc ht
          by_cases hi0 : i = 0
          · subst hi0
            rw [hhead]
            exact alignedPt_step g.offset _ _ (ha 0 hi) hspd'
          · rw [hbody i (by omega) hi, hhist (i - 1) (by omega)]
            exact ha (i - 1) (by omega)
        · rw [(hntc ht).2 i hi]
          exact ha i hi
      refine ⟨?_, hspd', ?_⟩
      · intro i hi
        rw [hoff]
        rcases hgrow with hct | ⟨hct, h1, hpos, -⟩
        · exact hseg i (by omega)
        · by_cases hieq : i = g.counter_tail
          · subst hieq
            rw [hpos, hhist (g.counter_tail - 1) (by omega)]
            exact ha (g.counter_tail - 1) (by omega)
          · exact hseg i (by omega)
      · intro hact
        rcases hfruit with hf | ⟨hact0, hpos⟩ | ⟨d, hd⟩
        · rw [hf] at hact
          cases hact
        · obtain ⟨j, k, hj, hk, hpos0⟩ := hfr hact0
          exact ⟨j, k, hj, hk, by rw [hpos, hpos0, hoff]⟩
        · have hw' : 0 < (sw / SQUARE_SIZE).toNat := by omega
          have hh' : 0 < (sh / SQUARE_SIZE).toNat := by omega
          obtain ⟨j, k, hj, hk, hs⟩ := samplePos_inGrid d sw sh g.offset hw' hh'
          exact ⟨j, k, hj, hk, by rw [hd, hs, hoff]⟩

/-- Witness for C10 at the eating scenario: the pre-state is grid-aligned
and the frame's result is still grid-aligned. -/
theorem claim_C10_witness :
    (0 : Int) < 775 / SQUARE_SIZE ∧ (0 : Int) < 434 / SQUARE_SIZE ∧
    GridAligned gEat 775 434 ∧
    update_game gEat noInput [] 775 434 = .ok gEatRes ∧
    GridAligned gEatRes 775 434 := by
  have hga : GridAligned gEat 775 434 := by
    refine ⟨?_, Or.inl rfl, ?_⟩
    · intro i hi
      exact ⟨⟨0, by norm_num [gEat, segAt]⟩, ⟨0, by norm_num [gEat, segAt]⟩⟩
    · intro hact
      refine ⟨1, 0, by decide, by decide, ?_⟩
      norm_num [gEat, SQUARE_SIZE]
  refine ⟨by decide, by decide, hga, by with_unfolding_all rfl, ?_⟩
  exact claim_C10.2 gEat gEatRes noInput [] 775 434 (by decide) (by decide) hga
    (by with_unfolding_all rfl)

end SnakeGame
